import Mathlib

/-!
Verification development for the `aviation_weather` Home Assistant integration
(`metar_parser.py` and `taf_parser.py`).  The Python parsing/formatting core is
shallowly embedded: strings are `List Char`/`String`, every regular expression
of the source is hand-compiled to an executable scanning function with the same
backtracking semantics (leftmost match, alternatives in source order, greedy or
lazy quantifiers as written, word boundaries and look-arounds made explicit),
dictionaries become structures whose fields are `Option`s (a `none` field models
an absent key), Python `int` becomes `Int`/`Nat` and `float` values produced by
exact decimal literals become `Rat`.  `round` is the Python round (half to even).
-/

namespace AvWx

/-- Python regex `\w` on the ASCII inputs handled here. -/
def isWordChar (c : Char) : Bool :=
  c.isAlpha || c.isDigit || c = '_'

/-- Python regex `\s` / `str.strip` whitespace on ASCII inputs. -/
def isSpaceChar (c : Char) : Bool :=
  c = ' ' || c = '\t' || c = '\n' || c = '\r' || c = '\x0b' || c = '\x0c'

/-- `\w` test on an optional character (`none` = outside the string). -/
def isWordOpt : Option Char → Bool
  | some c => isWordChar c
  | none => false

/-- Word boundary `\b` just before a word character: the previous character
(if any) must not be a word character. -/
def bdryBefore (prev : Option Char) : Bool :=
  !(isWordOpt prev)

/-- Word boundary `\b` just after a word character: the next character
(if any) must not be a word character. -/
def bdryAfter (next : Option Char) : Bool :=
  !(isWordOpt next)

/-- Literal-prefix test on character lists. -/
def startsWithL : List Char → List Char → Bool
  | [], _ => true
  | _ :: _, [] => false
  | p :: ps, c :: cs => p = c && startsWithL ps cs

/-- Substring containment, the Python `in` test on strings. -/
def containsSub (needle : List Char) : List Char → Bool
  | [] => startsWithL needle []
  | c :: cs => startsWithL needle (c :: cs) || containsSub needle cs

/-- Index of the first occurrence of a substring, the Python `str.index`
(`none` when absent). -/
def indexOfSub (needle : List Char) : List Char → Option Nat
  | [] => if startsWithL needle [] then some 0 else none
  | c :: cs =>
    if startsWithL needle (c :: cs) then some 0
    else (indexOfSub needle cs).map (· + 1)

/-- Python `str.strip()` on character lists. -/
def stripL (l : List Char) : List Char :=
  (l.dropWhile isSpaceChar).reverse.dropWhile isSpaceChar |>.reverse

/-- Length of the leading run of whitespace (`\s*`). -/
def wsRunLen : List Char → Nat
  | [] => 0
  | c :: cs => if isSpaceChar c then wsRunLen cs + 1 else 0

/-- Length of the leading run of ASCII digits (`[0-9]*`). -/
def digitRunLen : List Char → Nat
  | [] => 0
  | c :: cs => if c.isDigit then digitRunLen cs + 1 else 0

/-- Length of the leading run of upper-case letters (`[A-Z]*`). -/
def upperRunLen : List Char → Nat
  | [] => 0
  | c :: cs => if 'A' ≤ c && c ≤ 'Z' then upperRunLen cs + 1 else 0

/-- Numeric value of a list of decimal digits. -/
def digitsVal (l : List Char) : Nat :=
  l.foldl (fun a c => a * 10 + (c.toNat - '0'.toNat)) 0

/-- Take exactly `n` leading digits: `some (value, rest)` on success. -/
def takeDigits (n : Nat) (l : List Char) : Option (Nat × List Char) :=
  let d := l.take n
  if d.length = n && d.all (·.isDigit) then some (digitsVal d, l.drop n) else none

/-- Take exactly `n` leading digits, returning the characters themselves. -/
def takeDigitChars (n : Nat) (l : List Char) : Option (List Char × List Char) :=
  let d := l.take n
  if d.length = n && d.all (·.isDigit) then some (d, l.drop n) else none

/-- First-`some` choice, modelling ordered regex alternation. -/
def oor (a : Option α) (b : Unit → Option α) : Option α :=
  match a with
  | some x => some x
  | none => b ()

/-- The Python `round` builtin (round half to even) on exact
rationals. -/
def pyRound (q : ℚ) : ℤ :=
  let f : ℤ := ⌊q⌋
  let r : ℚ := q - f
  if r < 1/2 then f
  else if 1/2 < r then f + 1
  else if f % 2 = 0 then f else f + 1

/-- The same rounding applied to the exact fraction `n / b`, phrased over
the natural numbers so that it evaluates by kernel reduction; agreement
with `pyRound` is proved below (`pyRoundNat_eq_pyRound`). -/
def pyRoundNat (n b : Nat) : ℤ :=
  let q := n / b
  let r := n % b
  if 2 * r < b then (q : ℤ)
  else if b < 2 * r then (q : ℤ) + 1
  else if q % 2 = 0 then (q : ℤ) else (q : ℤ) + 1

/-- Zero-padded two-digit rendering, the Python zero-width-2 format for `0 ≤ n`. -/
def pad2 (n : Nat) : String :=
  if n < 10 then "0" ++ toString n else toString n

/--
A regex matcher at a fixed position: given the previous character (for `\b`
and look-behind) and the remaining suffix, return the payload and the number
of characters consumed, or `none` when the pattern does not match here.
-/
def MatcherT (α : Type) : Type :=
  Option Char → List Char → Option (α × Nat)

/-- `re.search`: leftmost position at which the matcher succeeds, returning
`(start, payload, length)`. -/
def searchAux (m : MatcherT α) : Option Char → Nat → List Char →
    Option (Nat × α × Nat)
  | prev, i, [] =>
    match m prev [] with
    | some (a, k) => some (i, a, k)
    | none => none
  | prev, i, c :: r =>
    match m prev (c :: r) with
    | some (a, k) => some (i, a, k)
    | none => searchAux m (some c) (i + 1) r

/-- `re.search` over a whole subject. -/
def research (m : MatcherT α) (cs : List Char) : Option (Nat × α × Nat) :=
  searchAux m none 0 cs

/-- `re.findall` / `re.finditer`: repeated leftmost non-overlapping matches,
advancing past each match (by one character if a match were empty).  The
`fuel` argument is an upper bound on steps; callers pass `cs.length + 1`. -/
def scanAllAux (m : MatcherT α) : Nat → Option Char → Nat → List Char →
    List (Nat × α × Nat)
  | 0, _, _, _ => []
  | fuel + 1, prev, i, l =>
    match m prev l with
    | some (a, k) =>
      if k = 0 then
        match l with
        | [] => [(i, a, k)]
        | c :: r => (i, a, k) :: scanAllAux m fuel (some c) (i + 1) r
      else
        let consumed := l.take k
        (i, a, k) :: scanAllAux m fuel consumed.getLast? (i + k) (l.drop k)
    | none =>
      match l with
      | [] => []
      | c :: r => scanAllAux m fuel (some c) (i + 1) r

/-- `re.finditer` over a whole subject, with positions. -/
def refinditer (m : MatcherT α) (cs : List Char) : List (Nat × α × Nat) :=
  scanAllAux m (cs.length + 1) none 0 cs

/-- `re.findall` over a whole subject (payloads only). -/
def refindall (m : MatcherT α) (cs : List Char) : List α :=
  (refinditer m cs).map (fun t => t.2.1)

/-- Ordered alternation over fixed literals: the first alternative that is a
prefix of `l` (the literals used with this helper are never prefixes of one
another, so at most one can match). -/
def firstMatch (opts : List (List Char)) (l : List Char) : Option (List Char × List Char) :=
  match opts with
  | [] => none
  | o :: os => if startsWithL o l then some (o, l.drop o.length) else firstMatch os l

/-- Matcher for `\bWORD\b` where `WORD` starts and ends with word characters
(covers the literal keywords and phrases of the source patterns). -/
def matchWordAt (w : List Char) : MatcherT Unit := fun prev l =>
  if bdryBefore prev && startsWithL w l && bdryAfter (l.drop w.length).head? then
    some ((), w.length)
  else none

/-- Whether `\bWORD\b` matches anywhere in the subject. -/
def containsWord (w : List Char) (cs : List Char) : Bool :=
  (research (matchWordAt w) cs).isSome

/-- A raw wind token as captured by
`\b(\d{3}|VRB)(\d{2,3})(G(\d{2,3}))?(KT|MPS|KMH)\b`. -/
structure WindTok where
  direction : String
  speedRaw : Nat
  gustRaw : Option Nat
  unit : String
deriving Repr, DecidableEq

/-- The `(KT|MPS|KMH)\b` tail of the wind patterns (alternatives in source
order, each checked with the closing word boundary). -/
def matchUnitTok (l : List Char) : Option (String × Nat) :=
  let tryU (u : List Char) : Option (String × Nat) :=
    if startsWithL u l && bdryAfter (l.drop u.length).head? then
      some (String.mk u, u.length)
    else none
  oor (tryU ['K', 'T']) fun _ =>
  oor (tryU ['M', 'P', 'S']) fun _ =>
  tryU ['K', 'M', 'H']

/-- The `(\d{2,3})(G(\d{2,3}))?(KT|MPS|KMH)\b` tail shared by the wind and
wind-shear patterns: greedy speed (3 digits before 2), greedy optional gust
group, with full backtracking into the unit alternatives. -/
def matchSpeedGustUnit (r1 : List Char) : Option (Nat × Option Nat × String × Nat) :=
  let speedAt (k : Nat) : Option (Nat × Option Nat × String × Nat) :=
    match takeDigits k r1 with
    | none => none
    | some (sp, r2) =>
      let withGust : Option (Option Nat × String × Nat) :=
        match r2 with
        | 'G' :: r3 =>
          let g (kg : Nat) : Option (Option Nat × String × Nat) :=
            match takeDigits kg r3 with
            | none => none
            | some (gv, r4) =>
              (matchUnitTok r4).map fun p => (some gv, p.1, 1 + kg + p.2)
          oor (g 3) fun _ => g 2
        | _ => none
      match oor withGust (fun _ =>
        (matchUnitTok r2).map fun p => ((none : Option Nat), p.1, p.2)) with
      | none => none
      | some (gust, u, k3) => some (sp, gust, u, k + k3)
  oor (speedAt 3) fun _ => speedAt 2

/-- Matcher for `\b(\d{3}|VRB)(\d{2,3})(G(\d{2,3}))?(KT|MPS|KMH)\b`
(the wind group shared verbatim by `parse_metar` and
`_parse_forecast_group`). -/
def matchWindAt : MatcherT WindTok := fun prev l =>
  if !(bdryBefore prev) then none else
  let dir? : Option (String × List Char × Nat) :=
    oor ((takeDigitChars 3 l).map fun p => (String.mk p.1, p.2, 3)) fun _ =>
      if startsWithL ['V', 'R', 'B'] l then some ("VRB", l.drop 3, 3) else none
  match dir? with
  | none => none
  | some (dir, r1, k1) =>
    (matchSpeedGustUnit r1).map fun q =>
      (⟨dir, q.1, q.2.1, q.2.2.1⟩, k1 + q.2.2.2)

/-- A raw wind-shear token as captured by
`\bWS(\d{3})/(\d{3})(\d{2,3})(G(\d{2,3}))?(KT|MPS|KMH)\b`. -/
structure ShearTok where
  heightRaw : Nat
  direction : String
  speedRaw : Nat
  gustRaw : Option Nat
  unit : String
deriving Repr, DecidableEq

/-- Matcher for the TAF wind-shear pattern above. -/
def matchShearAt : MatcherT ShearTok := fun prev l =>
  if !(bdryBefore prev) then none else
  match l with
  | 'W' :: 'S' :: r0 =>
    match takeDigits 3 r0 with
    | some (h, '/' :: r1) =>
      match takeDigitChars 3 r1 with
      | some (d, r2) =>
        (matchSpeedGustUnit r2).map fun q =>
          (⟨h, String.mk d, q.1, q.2.1, q.2.2.1⟩, 2 + 3 + 1 + 3 + q.2.2.2)
      | none => none
    | _ => none
  | _ => none

/-- Matcher for `\b\d{3}(\d{2,3})(G\d{2,3})?(KT|MPS|KMH)\b` (the auxiliary
wind search used only to delimit the METAR weather section). -/
def matchWindEndAt : MatcherT Unit := fun prev l =>
  if !(bdryBefore prev) then none else
  match takeDigitChars 3 l with
  | some (_, r1) => (matchSpeedGustUnit r1).map fun q => ((), 3 + q.2.2.2)
  | none => none

/-- Matcher for the wind-variation pattern `(\d{3})V(\d{3})`. -/
def matchVariationAt : MatcherT (Nat × Nat) := fun _ l =>
  match takeDigits 3 l with
  | some (a, 'V' :: r1) =>
    match takeDigits 3 r1 with
    | some (b, _) => some ((a, b), 7)
    | none => none
  | _ => none

/-- The statute-miles visibility alternative `((\d+ )?\d+/\d+|(\d+))SM\b`:
greedy digit runs, the optional `(\d+ )` whole-miles prefix tried before
being dropped, the fraction alternative tried before the plain-miles one.
Returns the matched characters and the length. -/
def matchVisSM (l : List Char) : Option (List Char × Nat) :=
  let fracFrom (l2 : List Char) (pre : Nat) : Option (List Char × Nat) :=
    let n1 := digitRunLen l2
    if n1 = 0 then none else
    match l2.drop n1 with
    | '/' :: r2 =>
      let n2 := digitRunLen r2
      if n2 = 0 then none else
      match r2.drop n2 with
      | 'S' :: 'M' :: r3 =>
        if bdryAfter r3.head? then
          let len := pre + n1 + 1 + n2 + 2
          some (l.take len, len)
        else none
      | _ => none
    | _ => none
  let altA : Option (List Char × Nat) :=
    let n0 := digitRunLen l
    let withPre : Option (List Char × Nat) :=
      if n0 = 0 then none else
      match l.drop n0 with
      | ' ' :: r1 => fracFrom r1 (n0 + 1)
      | _ => none
    oor withPre fun _ => fracFrom l 0
  let altB : Option (List Char × Nat) :=
    let n0 := digitRunLen l
    if n0 = 0 then none else
    match l.drop n0 with
    | 'S' :: 'M' :: r =>
      if bdryAfter r.head? then some (l.take (n0 + 2), n0 + 2) else none
    | _ => none
  oor altA fun _ => altB

/-- Matcher for the METAR visibility pattern
`\b(\d{4}|((\d+ )?\d+/\d+|(\d+))SM)\b`, returning the matched text. -/
def matchVisMetarAt : MatcherT (List Char) := fun prev l =>
  if !(bdryBefore prev) then none else
  oor (match takeDigitChars 4 l with
       | some (d, r) => if bdryAfter r.head? then some (d, 4) else none
       | none => none)
      fun _ => matchVisSM l

/-- Result of the TAF visibility pattern: the `meters` constructor marks the
`(?<!/)\d{4}(?!/)` alternative, everything else carries the matched text. -/
inductive VisTok where
  | txt (t : List Char)
  | meters (d : List Char)
deriving Repr, DecidableEq

/-- The matched text of a `VisTok`. -/
def VisTok.text : VisTok → List Char
  | .txt t => t
  | .meters d => d

/-- Matcher for the TAF visibility pattern
`\b(CAVOK|P6SM|(?<!/)\d{4}(?!/)|((\d+ )?\d+/\d+|(\d+))SM)\b`: the four-digit
meters alternative additionally requires the look-behind (previous character
is not `/`) and look-ahead (next character is not `/`). -/
def cavokChars : List Char := ['C', 'A', 'V', 'O', 'K']
def p6smChars : List Char := ['P', '6', 'S', 'M']

def matchVisTafAt : MatcherT VisTok := fun prev l =>
  if !(bdryBefore prev) then none else
  oor (if startsWithL cavokChars l && bdryAfter (l.drop 5).head? then
         some (VisTok.txt cavokChars, 5) else none) fun _ =>
  oor (if startsWithL p6smChars l && bdryAfter (l.drop 4).head? then
         some (VisTok.txt p6smChars, 4) else none) fun _ =>
  oor (if prev ≠ some '/' then
         match takeDigitChars 4 l with
         | some (d, r) =>
           if r.head? ≠ some '/' && bdryAfter r.head? then
             some (VisTok.meters d, 4)
           else none
         | none => none
       else none) fun _ =>
  (matchVisSM l).map fun p => (VisTok.txt p.1, p.2)

/-- A weather-phenomena capture
`(-|\+|VC)?(MI|BC|DR|BL|SH|TS|FZ)?(DZ|RA|...|DS)`. -/
structure WxTok where
  intensity : Option String
  descriptor : Option String
  phenomenon : String
deriving Repr, DecidableEq

def wxIntensities : List (List Char) := [['-'], ['+'], ['V', 'C']]

def wxDescriptors : List (List Char) :=
  [['M', 'I'], ['B', 'C'], ['D', 'R'], ['B', 'L'], ['S', 'H'], ['T', 'S'], ['F', 'Z']]

def wxPhenomena : List (List Char) :=
  [['D', 'Z'], ['R', 'A'], ['S', 'N'], ['S', 'G'], ['I', 'C'], ['P', 'L'],
   ['G', 'R'], ['G', 'S'], ['U', 'P'], ['B', 'R'], ['F', 'G'], ['F', 'U'],
   ['V', 'A'], ['D', 'U'], ['S', 'A'], ['H', 'Z'], ['P', 'Y'], ['S', 'Q'],
   ['F', 'C'], ['S', 'S'], ['D', 'S']]

/-- Matcher for the weather-phenomena pattern; `tailBdry` selects the TAF
variant, which appends a closing `\b` (the METAR variant has none).  The
optional intensity and descriptor groups are greedy: each is tried present
(alternatives in source order) before being dropped. -/
def matchWxAt (tailBdry : Bool) : MatcherT WxTok := fun _ l =>
  let finish (i d : Option String) (r : List Char) (pre : Nat) : Option (WxTok × Nat) :=
    match firstMatch wxPhenomena r with
    | some (p, r2) =>
      if tailBdry && !(bdryAfter r2.head?) then none
      else some (⟨i, d, String.mk p⟩, pre + 2)
    | none => none
  let withDesc (i : Option String) (r : List Char) (pre : Nat) : Option (WxTok × Nat) :=
    oor (match firstMatch wxDescriptors r with
         | some (d, r2) => finish i (some (String.mk d)) r2 (pre + 2)
         | none => none)
        fun _ => finish i none r pre
  oor (match firstMatch wxIntensities l with
       | some (ic, r1) => withDesc (some (String.mk ic)) r1 ic.length
       | none => none)
      fun _ => withDesc none l 0

/-- A cloud-layer capture: the raw height group (`""` when the optional group
did not participate) and the raw convective group (`""` outside TAF or when
absent), exactly the tuple `re.findall` yields. -/
structure CloudTok where
  type : String
  hRaw : String
  conv : String
deriving Repr, DecidableEq

def cloudTypesMetar : List (List Char) :=
  [['F', 'E', 'W'], ['S', 'C', 'T'], ['B', 'K', 'N'], ['O', 'V', 'C'],
   ['V', 'V'], ['N', 'S', 'C']]

def cloudTypesTaf : List (List Char) :=
  [['F', 'E', 'W'], ['S', 'C', 'T'], ['B', 'K', 'N'], ['O', 'V', 'C'],
   ['V', 'V'], ['N', 'S', 'C'], ['S', 'K', 'C']]

/-- Matcher for the cloud patterns
`\b(FEW|...)(\d{3}|///)?\b` (METAR, `useTaf = false`) and
`\b(FEW|...|SKC)(\d{3}|///)?(CB|TCU)?\b` (TAF).  The closing `\b` compares
the word-ness of the last consumed character with the next one, so a match
ending in `///` needs a word character to follow, with backtracking into the
shorter optional-group alternatives otherwise. -/
def matchCloudAt (useTaf : Bool) : MatcherT CloudTok := fun prev l =>
  if !(bdryBefore prev) then none else
  match firstMatch (if useTaf then cloudTypesTaf else cloudTypesMetar) l with
  | none => none
  | some (ty, r1) =>
    let k1 := ty.length
    let fin (h conv : String) (lastWord : Bool) (r3 : List Char) (k2 k3 : Nat) :
        Option (CloudTok × Nat) :=
      if lastWord != isWordOpt r3.head? then
        some (⟨String.mk ty, h, conv⟩, k1 + k2 + k3)
      else none
    let tryConv (r2 : List Char) (k2 : Nat) (h : String) (lastWord : Bool) :
        Option (CloudTok × Nat) :=
      if useTaf then
        oor (if startsWithL ['C', 'B'] r2 then
               fin h "CB" true (r2.drop 2) k2 2 else none) fun _ =>
        oor (if startsWithL ['T', 'C', 'U'] r2 then
               fin h "TCU" true (r2.drop 3) k2 3 else none) fun _ =>
        fin h "" lastWord r2 k2 0
      else fin h "" lastWord r2 k2 0
    oor (match takeDigitChars 3 r1 with
         | some (d, r2) => tryConv r2 3 (String.mk d) true
         | none => none) fun _ =>
    oor (if startsWithL ['/', '/', '/'] r1 then
           tryConv (r1.drop 3) 3 "///" false else none) fun _ =>
    tryConv r1 0 "" true

/-- One side of the temperature group: `(\d{2}|M\d{2})` (plain alternative
first), returning the captured text. -/
def tempPart (l : List Char) : Option (List Char × List Char) :=
  oor ((takeDigitChars 2 l).map fun p => (p.1, p.2)) fun _ =>
    match l with
    | 'M' :: r =>
      match takeDigitChars 2 r with
      | some (d, r2) => some ('M' :: d, r2)
      | none => none
    | _ => none

/-- Matcher for `(\d{2}|M\d{2})/(\d{2}|M\d{2})` (no word boundaries). -/
def matchTempDewAt : MatcherT (List Char × List Char) := fun _ l =>
  match tempPart l with
  | some (t, '/' :: r1) =>
    match tempPart r1 with
    | some (d, _) => some ((t, d), t.length + 1 + d.length)
    | none => none
  | _ => none

/-- Matcher for the altimeter pattern `\b(Q\d{4}|A\d{4})\b`. -/
def matchAltimeterAt : MatcherT (Char × Nat) := fun prev l =>
  if !(bdryBefore prev) then none else
  match l with
  | c :: r =>
    if c = 'Q' || c = 'A' then
      match takeDigits 4 r with
      | some (v, r2) => if bdryAfter r2.head? then some ((c, v), 5) else none
      | none => none
    else none
  | [] => none

/-- A runway-visual-range capture from
`\bR(\d{2})([LCR]?)/P?(\d{4})([NDU]?)\b`. -/
structure RvrTok where
  runwayDigits : String
  side : String
  range : Nat
  tendency : String
deriving Repr, DecidableEq

/-- Matcher for the RVR pattern; the optional side letter, the optional `P`
and the optional tendency letter are greedy with backtracking into the
empty alternative. -/
def matchRvrAt : MatcherT RvrTok := fun prev l =>
  if !(bdryBefore prev) then none else
  match l with
  | 'R' :: r0 =>
    match takeDigitChars 2 r0 with
    | none => none
    | some (rw, r1) =>
      let afterSide (side : String) (r2 : List Char) (k2 : Nat) : Option (RvrTok × Nat) :=
        match r2 with
        | '/' :: r3 =>
          let afterP (r4 : List Char) (k4 : Nat) : Option (RvrTok × Nat) :=
            match takeDigits 4 r4 with
            | none => none
            | some (rng, r5) =>
              let fin (tend : String) (r6 : List Char) (k6 : Nat) : Option (RvrTok × Nat) :=
                if bdryAfter r6.head? then
                  some (⟨String.mk rw, side, rng, tend⟩, 3 + k2 + 1 + k4 + 4 + k6)
                else none
              match r5 with
              | c :: r6 =>
                if c = 'N' || c = 'D' || c = 'U' then
                  oor (fin (String.mk [c]) r6 1) fun _ => fin "" r5 0
                else fin "" r5 0
              | [] => fin "" r5 0
          match r3 with
          | 'P' :: r4 => oor (afterP r4 1) fun _ => afterP r3 0
          | _ => afterP r3 0
        | _ => none
      match r1 with
      | c :: r2 =>
        if c = 'L' || c = 'C' || c = 'R' then
          oor (afterSide (String.mk [c]) r2 1) fun _ => afterSide "" r1 0
        else afterSide "" r1 0
      | [] => afterSide "" r1 0
  | _ => none

/-- `$` of an unanchored Python regex: end of subject, or just before a
final newline. -/
def dollarAt (l : List Char) : Bool :=
  match l with
  | [] => true
  | ['\n'] => true
  | _ => false

/-- `\s+` followed by a position satisfying `p`: the look-ahead building
block for the lazy-quantifier patterns. -/
def wsThenP (p : List Char → Bool) : List Char → Bool
  | [] => false
  | c :: r => isSpaceChar c && (p r || wsThenP p r)

/-- The look-ahead body `\s+RMK` (literal, no word boundary). -/
def wsThenRMK (l : List Char) : Bool :=
  wsThenP (startsWithL ['R', 'M', 'K']) l

/-- The TREND look-ahead `(?=\s+RMK|=|$)`. -/
def trendLk (l : List Char) : Bool :=
  wsThenRMK l || l.head? = some '=' || dollarAt l

/-- Minimal lazy tail for the TREND details group `[^=]*?` (length may be
zero); characters other than `=` are allowed, including newlines. -/
def trendTailFind : List Char → Option Nat
  | [] => if trendLk [] then some 0 else none
  | c :: r =>
    if trendLk (c :: r) then some 0
    else if c = '=' then none
    else (trendTailFind r).map (· + 1)

/-- Greedy `\s+` before the lazy details tail: widths tried from `w` down
to 1, the first width whose tail search succeeds wins. -/
def trendWLoop (pre : List Char) : Nat → Option (Nat × Nat)
  | 0 => none
  | w + 1 =>
    match trendTailFind (pre.drop (w + 1)) with
    | some t => some (w + 1, t)
    | none => trendWLoop pre w

/-- Matcher for the TREND pattern
`\b(NOSIG|TEMPO|BECMG)(\s+[^=]*?)?(?=\s+RMK|=|$)`: the keyword, then the
greedy-optional details group, then the zero-width look-ahead.  Returns the
keyword and the raw details group (before `.strip()`), `none` when the
optional group did not participate. -/
def matchTrendAt : MatcherT (String × Option (List Char)) := fun prev l =>
  if !(bdryBefore prev) then none else
  match firstMatch [['N', 'O', 'S', 'I', 'G'], ['T', 'E', 'M', 'P', 'O'],
                    ['B', 'E', 'C', 'M', 'G']] l with
  | none => none
  | some (kw, r1) =>
    let w0 := wsRunLen r1
    match trendWLoop r1 w0 with
    | some (w, t) =>
      some ((String.mk kw, some (r1.take (w + t))), kw.length + w + t)
    | none =>
      if trendLk r1 then some ((String.mk kw, none), kw.length) else none

/-- Matcher for the report-modifier pattern
`\d{6}Z\s+(AUTO|COR|CCA|CCB|CCC|CCD|CCE|CCF)\s+`. -/
def matchModifierAt : MatcherT String := fun _ l =>
  match takeDigits 6 l with
  | some (_, 'Z' :: r1) =>
    let w1 := wsRunLen r1
    if w1 = 0 then none else
    match firstMatch [['A', 'U', 'T', 'O'], ['C', 'O', 'R'],
                      ['C', 'C', 'A'], ['C', 'C', 'B'], ['C', 'C', 'C'],
                      ['C', 'C', 'D'], ['C', 'C', 'E'], ['C', 'C', 'F']]
                     (r1.drop w1) with
    | some (kw, r2) =>
      let w2 := wsRunLen r2
      if w2 = 0 then none
      else some (String.mk kw, 7 + w1 + kw.length + w2)
    | none => none
  | _ => none

/-- Matcher for the observation-time pattern `(\d{2})(\d{2})(\d{2})Z`,
returning day, hour, minute. -/
def matchObsTimeAt : MatcherT (Nat × Nat × Nat) := fun _ l =>
  match takeDigits 2 l with
  | some (d, r1) =>
    match takeDigits 2 r1 with
    | some (h, r2) =>
      match takeDigits 2 r2 with
      | some (m, 'Z' :: _) => some ((d, h, m), 7)
      | _ => none
    | none => none
  | none => none

/-- Matcher for the sea-level-pressure remark pattern `SLP(\d{3})`
(no word boundaries). -/
def matchSlpAt : MatcherT Nat := fun _ l =>
  match l with
  | 'S' :: 'L' :: 'P' :: r =>
    match takeDigits 3 r with
    | some (v, _) => some (v, 6)
    | none => none
  | _ => none

/-- Matcher for the automated station pattern `\b(AO[12])\b`. -/
def matchAOAt : MatcherT String := fun prev l =>
  if !(bdryBefore prev) then none else
  match l with
  | 'A' :: 'O' :: c :: r =>
    if (c = '1' || c = '2') && bdryAfter r.head? then
      some (String.mk ['A', 'O', c], 3)
    else none
  | _ => none

/-- Matcher for the military colour codes
`(BLU|WHT|GRN|YLO1|YLO2|AMB|RED)` (no word boundaries). -/
def matchMilitaryAt : MatcherT String := fun _ l =>
  match firstMatch [['B', 'L', 'U'], ['W', 'H', 'T'], ['G', 'R', 'N'],
                    ['Y', 'L', 'O', '1'], ['Y', 'L', 'O', '2'],
                    ['A', 'M', 'B'], ['R', 'E', 'D']] l with
  | some (c, _) => some (String.mk c, c.length)
  | none => none

/-- Greedy length for the `[A-Z]{2,}` group of the weather begin/end
pattern: the largest `k ≥ 2` (at most the run length) such that the
continuation `(B|E)(\d{2})\b` succeeds at offset `k`. -/
def wxTimeKLoop (l : List Char) : Nat → Option (String × Char × Nat × Nat)
  | 0 => none
  | 1 => none
  | k + 2 =>
    (match l.drop (k + 2) with
     | c :: r =>
       if c = 'B' || c = 'E' then
         match takeDigits 2 r with
         | some (mins, r2) =>
           if bdryAfter r2.head? then
             some (String.mk (l.take (k + 2)), c, mins, k + 2 + 3)
           else none
         | none => none
       else none
     | [] => none).elim (wxTimeKLoop l (k + 1)) some

/-- Matcher for the weather begin/end pattern `\b([A-Z]{2,})(B|E)(\d{2})\b`. -/
def matchWxTimeAt : MatcherT (String × Char × Nat) := fun prev l =>
  if !(bdryBefore prev) then none else
  match wxTimeKLoop l (upperRunLen l) with
  | some (ty, act, mins, len) => some ((ty, act, mins), len)
  | none => none

/-- Matcher for `\bRMK\b(.*)`: the group captures to the end of the line
(`.` does not match a newline). -/
def matchRmkAt : MatcherT (List Char) := fun prev l =>
  if bdryBefore prev && startsWithL ['R', 'M', 'K'] l &&
      bdryAfter (l.drop 3).head? then
    let t := (l.drop 3).takeWhile (· ≠ '\n')
    some (t, 3 + t.length)
  else none

def isUpperAZ (c : Char) : Bool := 'A' ≤ c && c ≤ 'Z'

/-- Take exactly `n` leading upper-case letters. -/
def takeUppers (n : Nat) (l : List Char) : Option (List Char × List Char) :=
  let d := l.take n
  if d.length = n && d.all isUpperAZ then some (d, l.drop n) else none

/-- The anchored TAF station pattern
`(?:^|^TAF\s+(?:AMD\s+|COR\s+)?)([A-Z]{4})`: both alternatives of the prefix
group are anchored at the start of the subject, so the whole search reduces
to a match at position 0, with backtracking out of the optional
`AMD`/`COR` prefix. -/
def tafStationSearch (cs : List Char) : Option String :=
  let four (l : List Char) : Option String :=
    (takeUppers 4 l).map fun p => String.mk p.1
  oor (four cs) fun _ =>
    if startsWithL ['T', 'A', 'F'] cs then
      let w := wsRunLen (cs.drop 3)
      if w = 0 then none else
      let r := cs.drop (3 + w)
      let kwd (k : List Char) : Option String :=
        if startsWithL k r then
          let w2 := wsRunLen (r.drop k.length)
          if w2 = 0 then none else four (r.drop (k.length + w2))
        else none
      oor (kwd ['A', 'M', 'D']) fun _ =>
      oor (kwd ['C', 'O', 'R']) fun _ =>
      four r
    else none

/-- Matcher for the TAF issue-time pattern `([A-Z]{4})\s+(\d{6})Z`
(only the second group is consumed by the caller). -/
def matchIssueAt : MatcherT String := fun _ l =>
  match takeUppers 4 l with
  | none => none
  | some (_, r1) =>
    let w := wsRunLen r1
    if w = 0 then none else
    match takeDigitChars 6 (r1.drop w) with
    | some (d, 'Z' :: _) => some (String.mk d, 4 + w + 6 + 1)
    | _ => none

/-- Matcher for the TAF valid-period pattern `(\d{6})Z\s+(\d{4})/(\d{4})`. -/
def matchValidPeriodAt : MatcherT (String × String) := fun _ l =>
  match takeDigitChars 6 l with
  | some (_, 'Z' :: r1) =>
    let w := wsRunLen r1
    if w = 0 then none else
    match takeDigitChars 4 (r1.drop w) with
    | some (f, '/' :: r2) =>
      match takeDigitChars 4 r2 with
      | some (t, _) => some ((String.mk f, String.mk t), 7 + w + 9)
      | none => none
    | _ => none
  | _ => none

/-- Matcher for `TX(M?\d{2})/(\d{4})Z` (`c2 = 'X'`) and `TN(M?\d{2})/(\d{4})Z`
(`c2 = 'N'`); the optional `M` is greedy. -/
def matchTempFcstAt (c2 : Char) : MatcherT (List Char × List Char) := fun _ l =>
  match l with
  | 'T' :: c :: r =>
    if c = c2 then
      let fin (t : List Char) (r1 : List Char) : Option ((List Char × List Char) × Nat) :=
        match r1 with
        | '/' :: r2 =>
          match takeDigitChars 4 r2 with
          | some (tm, 'Z' :: _) => some ((t, tm), 2 + t.length + 1 + 4 + 1)
          | _ => none
        | _ => none
      oor (match r with
           | 'M' :: r' =>
             match takeDigitChars 2 r' with
             | some (d, r1) => fin ('M' :: d) r1
             | none => none
           | _ => none) fun _ =>
        match takeDigitChars 2 r with
        | some (d, r1) => fin d r1
        | none => none
    else none
  | _ => none

/-- Matcher for the QNH forecast pattern `QNH(\d{4})INS`. -/
def matchQnhAt : MatcherT (List Char) := fun _ l =>
  match l with
  | 'Q' :: 'N' :: 'H' :: r =>
    match takeDigitChars 4 r with
    | some (d, r1) =>
      if startsWithL ['I', 'N', 'S'] r1 then some (d, 10) else none
    | none => none
  | _ => none

/-- Matcher for the forecast-group valid-period pattern `(\d{4})/(\d{4})`. -/
def matchPeriodAt : MatcherT (String × String) := fun _ l =>
  match takeDigitChars 4 l with
  | some (f, '/' :: r1) =>
    match takeDigitChars 4 r1 with
    | some (t, _) => some ((String.mk f, String.mk t), 9)
    | none => none
  | _ => none

/-- Matcher for the FM timestamp pattern `FM(\d{6})` (no word boundary). -/
def matchFMAt : MatcherT String := fun _ l =>
  match l with
  | 'F' :: 'M' :: r =>
    match takeDigitChars 6 r with
    | some (d, _) => some (String.mk d, 8)
    | none => none
  | _ => none

def tempoChars : List Char := ['T', 'E', 'M', 'P', 'O']
def becmgChars : List Char := ['B', 'E', 'C', 'M', 'G']
def prob30Chars : List Char := ['P', 'R', 'O', 'B', '3', '0']
def prob40Chars : List Char := ['P', 'R', 'O', 'B', '4', '0']

/-- Matcher for the split point `\b(TEMPO|BECMG|PROB30|PROB40|FM\d{6})\b`
used to separate the base forecast from the change groups. -/
def matchFirstChangeAt : MatcherT Unit := fun prev l =>
  if !(bdryBefore prev) then none else
  let fin (k : Nat) : Option (Unit × Nat) :=
    if bdryAfter (l.drop k).head? then some ((), k) else none
  oor (if startsWithL tempoChars l then fin 5 else none) fun _ =>
  oor (if startsWithL becmgChars l then fin 5 else none) fun _ =>
  oor (if startsWithL prob30Chars l then fin 6 else none) fun _ =>
  oor (if startsWithL prob40Chars l then fin 6 else none) fun _ =>
  (match l with
   | 'F' :: 'M' :: r => if (takeDigits 6 r).isSome then fin 8 else none
   | _ => none)

/-- The change-indicator body of the segmentation look-ahead:
`(?:TEMPO|BECMG|PROB(?:30|40)|FM\d{6})` (no word boundaries, no negative
look-ahead). -/
def tafIndLk (l : List Char) : Bool :=
  startsWithL tempoChars l || startsWithL becmgChars l ||
  startsWithL prob30Chars l || startsWithL prob40Chars l ||
  (match l with
   | 'F' :: 'M' :: r => (takeDigits 6 r).isSome
   | _ => false)

/-- The segmentation look-ahead `(?=\s+(?:TEMPO|BECMG|PROB(?:30|40)|FM\d{6})|$)`. -/
def segLk (l : List Char) : Bool :=
  wsThenP tafIndLk l || dollarAt l

/-- Minimal lazy tail for the segmentation body `[^\n]+?` (length at least
one, no newline), stopping at the first position where `segLk` holds. -/
def segTailFind : List Char → Option Nat
  | [] => none
  | c :: r =>
    if c = '\n' then none
    else if segLk r then some 1
    else (segTailFind r).map (· + 1)

/-- Greedy `\s+` before the lazy segmentation tail: widths tried from `w`
down to 1, first width whose tail search succeeds wins (the Python engine
backtracks the greedy group only after exhausting the lazy tail). -/
def segWLoop (pre : List Char) : Nat → Option (Nat × Nat)
  | 0 => none
  | w + 1 =>
    match segTailFind (pre.drop (w + 1)) with
    | some t => some (w + 1, t)
    | none => segWLoop pre w

/-- Matcher (length only) for the combined change-group pattern
`(PROB(?:30|40)\s+TEMPO\s+\d{4}/\d{4}\s+[^\n]+?)(?=...)`. -/
def matchProbTempoSeg (l : List Char) : Option Nat :=
  if startsWithL prob30Chars l || startsWithL prob40Chars l then
    let r1 := l.drop 6
    let w1 := wsRunLen r1
    if w1 = 0 then none else
    let r2 := r1.drop w1
    if startsWithL tempoChars r2 then
      let r3 := r2.drop 5
      let w2 := wsRunLen r3
      if w2 = 0 then none else
      match takeDigits 4 (r3.drop w2) with
      | some (_, '/' :: r4) =>
        match takeDigits 4 r4 with
        | some (_, r5) =>
          match segWLoop r5 (wsRunLen r5) with
          | some (w3, t) => some (6 + w1 + 5 + w2 + 9 + w3 + t)
          | none => none
        | none => none
      | _ => none
    else none
  else none

/-- Matcher (length only) for the plain change-group pattern
`((?:TEMPO|BECMG|PROB(?:30|40)(?!\s+TEMPO)|FM\d{6})\s+[^\n]+?)(?=...)`:
note the negative look-ahead that refuses a bare `PROB30`/`PROB40` when it
is followed by whitespace and `TEMPO`. -/
def matchOtherSeg (l : List Char) : Option Nat :=
  let cont (k : Nat) : Option Nat :=
    let r := l.drop k
    match segWLoop r (wsRunLen r) with
    | some (w, t) => some (k + w + t)
    | none => none
  oor (if startsWithL tempoChars l then cont 5 else none) fun _ =>
  oor (if startsWithL becmgChars l then cont 5 else none) fun _ =>
  oor (if startsWithL prob30Chars l &&
          !(wsThenP (startsWithL tempoChars) (l.drop 6)) then cont 6 else none) fun _ =>
  oor (if startsWithL prob40Chars l &&
          !(wsThenP (startsWithL tempoChars) (l.drop 6)) then cont 6 else none) fun _ =>
  (match l with
   | 'F' :: 'M' :: r => if (takeDigits 6 r).isSome then cont 8 else none
   | _ => none)

/-- A change-group candidate span: `re.finditer` match position, end and
captured text (group 1, which is the whole consumed part). -/
structure MSpan where
  start : Nat
  stop : Nat
  text : List Char
deriving Repr, DecidableEq

/-- All `finditer` matches of the combined `PROB.. TEMPO` pattern. -/
def probTempoMatches (cs : List Char) : List MSpan :=
  (refinditer (fun _ l => (matchProbTempoSeg l).map fun k => ((), k)) cs).map
    fun t => ⟨t.1, t.1 + t.2.2, (cs.drop t.1).take t.2.2⟩

/-- All `finditer` matches of the plain change-group pattern. -/
def otherSegMatches (cs : List Char) : List MSpan :=
  (refinditer (fun _ l => (matchOtherSeg l).map fun k => ((), k)) cs).map
    fun t => ⟨t.1, t.1 + t.2.2, (cs.drop t.1).take t.2.2⟩

/-- `all_matches = prob_tempo_matches + other_matches`. -/
def tafAllMatches (cs : List Char) : List MSpan :=
  probTempoMatches cs ++ otherSegMatches cs

/-- Stable insertion used to model `list.sort(key=lambda x: x.start())`:
an element is inserted after every earlier element with a key `≤` its own. -/
def insByStart (x : MSpan) : List MSpan → List MSpan
  | [] => [x]
  | y :: ys => if y.start ≤ x.start then y :: insByStart x ys else x :: y :: ys

/-- Stable sort by match start. -/
def sortByStart : List MSpan → List MSpan
  | [] => []
  | x :: xs => insByStart x (sortByStart xs)

/-- The overlap filter of `parse_taf`: scan the sorted matches keeping a
match only when its start is at or past the end of the last kept match
(`last_end` starts at `-1`). -/
def filterOv (le : Int) : List MSpan → List MSpan
  | [] => []
  | m :: ms =>
    if le ≤ (m.start : Int) then m :: filterOv (m.stop : Int) ms
    else filterOv le ms

/-- The sorted, overlap-filtered change-group candidates. -/
def tafFilteredMatches (cs : List Char) : List MSpan :=
  filterOv (-1) (sortByStart (tafAllMatches cs))

/-- The change-group type dispatch on the stripped group text
(`group_text.startswith(...)` chain, `none` = the `continue` branch). -/
def segGroupType (g : List Char) : Option String :=
  if startsWithL "PROB30 TEMPO".data g then some "PROB30 TEMPO"
  else if startsWithL "PROB40 TEMPO".data g then some "PROB40 TEMPO"
  else if startsWithL "PROB30".data g then some "PROB30"
  else if startsWithL "PROB40".data g then some "PROB40"
  else if startsWithL "TEMPO".data g then some "TEMPO"
  else if startsWithL "BECMG".data g then some "BECMG"
  else if startsWithL "FM".data g then some "FM"
  else none

/-! ## Data model

Parsed reports are Python dictionaries; they are modelled as structures in
which a `none` field stands for an absent key. -/

/-- A numeric value as the Python code stores it: an `int`, or a `float`
built from a two-decimal literal (stored as hundredths and rendered with
the shortest-round-trip rule of `str(float)`). -/
inductive PyNum where
  | int (i : Int)
  | float2 (centi : Nat)
deriving Repr, DecidableEq

/-- `str` of a two-decimal float: a trailing zero in the fraction is
dropped, a whole number keeps one zero digit. -/
def renderCenti (c : Nat) : String :=
  let whole := c / 100
  let frac := c % 100
  if frac = 0 then toString whole ++ ".0"
  else if frac % 10 = 0 then toString whole ++ "." ++ toString (frac / 10)
  else toString whole ++ "." ++ pad2 frac

def PyNum.render : PyNum → String
  | .int i => toString i
  | .float2 c => renderCenti c

structure WxEntry where
  intensity : Option String := none
  descriptor : Option String := none
  phenomenon : Option String := none
deriving Repr, DecidableEq

structure CloudLayer where
  type : String
  height : Option Nat := none
  convective : Option String := none
deriving Repr, DecidableEq

/-- The METAR wind dictionary: when only a variation group is present the
other keys are absent. -/
structure WindDict where
  direction : Option String := none
  speed : Option Int := none
  gust : Option Int := none
  variation : Option (Nat × Nat) := none
deriving Repr, DecidableEq

/-- The TAF forecast-group wind dictionary (all three keys always set,
`gust` possibly `None`). -/
structure TafWind where
  direction : String
  speed : Int
  gust : Option Int := none
deriving Repr, DecidableEq

structure WindShear where
  height : Nat
  direction : String
  speed : Int
  gust : Option Int := none
deriving Repr, DecidableEq

structure RvrEntry where
  runway : String
  range : Nat
  tendency : Option String := none
deriving Repr, DecidableEq

structure TrendInfo where
  type : String
  details : Option String := none
deriving Repr, DecidableEq

structure ForecastGroup where
  type : String
  valid_from : Option String := none
  valid_to : Option String := none
  wind_shear : Option WindShear := none
  wind : Option TafWind := none
  visibility : Option String := none
  weather : Option (List WxEntry) := none
  clouds : Option (List CloudLayer) := none
deriving Repr, DecidableEq

/-- Speed conversion of the wind blocks: `MPS` and `KMH` are converted to
knots with `round(v * 1.94384)` and `round(v * 0.539957)` (the literals
written as the exact fractions 194384/100000 and 539957/1000000), any
other unit (always `KT` here) is stored unchanged. -/
def knotsOfUnit (u : String) (v : Nat) : Int :=
  if u = "MPS" then pyRoundNat (v * 194384) 100000
  else if u = "KMH" then pyRoundNat (v * 539957) 1000000
  else (v : Int)

/-- Gust conversion: `round(gust * c) if gust else None` — a zero gust is
falsy, so in the `MPS`/`KMH` branches it collapses to `None`. -/
def gustKnotsOfUnit (u : String) (g : Option Nat) : Option Int :=
  match g with
  | none => none
  | some gv =>
    if u = "MPS" then
      if gv ≠ 0 then some (pyRoundNat (gv * 194384) 100000) else none
    else if u = "KMH" then
      if gv ≠ 0 then some (pyRoundNat (gv * 539957) 1000000) else none
    else some (gv : Int)

def wxEntryOfTok (t : WxTok) : WxEntry :=
  { intensity := t.intensity, descriptor := t.descriptor,
    phenomenon := some t.phenomenon }

/-- Cloud tuple to dictionary, METAR variant (no convective key): an empty
or `///` height group becomes `None`. -/
def cloudLayerOfTok (t : CloudTok) : CloudLayer :=
  { type := t.type,
    height :=
      if t.hRaw ≠ "" && t.hRaw ≠ "///" then some (digitsVal t.hRaw.data) else none }

/-- Cloud tuple to dictionary, TAF variant (adds `convective` when the
group participated). -/
def cloudLayerOfTokTaf (t : CloudTok) : CloudLayer :=
  { type := t.type,
    height :=
      if t.hRaw ≠ "" && t.hRaw ≠ "///" then some (digitsVal t.hRaw.data) else none,
    convective := if t.conv ≠ "" then some t.conv else none }

/-! ## `_parse_forecast_group` -/

/-- Group types that carry a `DDHH/DDHH` valid period. -/
def periodTypes : List String :=
  ["TEMPO", "BECMG", "PROB30", "PROB40", "PROB30 TEMPO", "PROB40 TEMPO"]

def fgValidPeriod (cs : List Char) (ty : String) : Option String × Option String :=
  if periodTypes.contains ty then
    match research matchPeriodAt cs with
    | some (_, p, _) => (some p.1, some p.2)
    | none => (none, none)
  else (none, none)

def fgFMFrom (cs : List Char) (ty : String) : Option String :=
  if ty = "FM" then (research matchFMAt cs).map (fun t => t.2.1) else none

def fgWindShear (cs : List Char) : Option WindShear :=
  (research matchShearAt cs).map fun t =>
    { height := t.2.1.heightRaw * 100, direction := t.2.1.direction,
      speed := knotsOfUnit t.2.1.unit t.2.1.speedRaw,
      gust := gustKnotsOfUnit t.2.1.unit t.2.1.gustRaw }

def fgWind (cs : List Char) : Option TafWind :=
  (research matchWindAt cs).map fun t =>
    { direction := t.2.1.direction,
      speed := knotsOfUnit t.2.1.unit t.2.1.speedRaw,
      gust := gustKnotsOfUnit t.2.1.unit t.2.1.gustRaw }

def fgVisibility (cs : List Char) : Option String :=
  match research matchVisTafAt cs with
  | some (_, v, _) =>
    let t := String.mk v.text
    if t = "CAVOK" then some "CAVOK"
    else if containsSub ['S', 'M'] v.text then some (t ++ " (statute miles)")
    else some (t ++ " meters")
  | none => none

def nswChars : List Char := ['N', 'S', 'W']
def vcshChars : List Char := ['V', 'C', 'S', 'H']

def fgWeather (cs : List Char) : Option (List WxEntry) :=
  let m := refindall (matchWxAt true) cs
  let w0 : Option (List WxEntry) :=
    if m.isEmpty then none else some (m.map wxEntryOfTok)
  let w1 : Option (List WxEntry) :=
    if containsWord nswChars cs then some [{ phenomenon := some "NSW" }] else w0
  if containsWord vcshChars cs then
    some (w1.getD [] ++
      [{ intensity := some "VC", descriptor := some "SH", phenomenon := some "RA" }])
  else w1

def fgClouds (cs : List Char) : Option (List CloudLayer) :=
  let m := refindall (matchCloudAt true) cs
  if m.isEmpty then none else some (m.map cloudLayerOfTokTaf)

/-- `_parse_forecast_group(group_text, group_type)`. -/
def parseForecastGroup (g : String) (ty : String) : ForecastGroup :=
  let cs := g.data
  { type := ty,
    valid_from := oor (fgValidPeriod cs ty).1 fun _ => fgFMFrom cs ty,
    valid_to := (fgValidPeriod cs ty).2,
    wind_shear := fgWindShear cs,
    wind := fgWind cs,
    visibility := fgVisibility cs,
    weather := fgWeather cs,
    clouds := fgClouds cs }

/-! ## `parse_metar` -/

structure MetarParsed where
  report_type : Option String := none
  station_id : Option String := none
  observation_time : Option String := none
  observation_day : Option String := none
  observation_day_ordinal : Option String := none
  observation_time_hm : Option String := none
  observation_time_iso8601 : Option String := none
  report_modifier : Option String := none
  cavok : Option Bool := none
  wind : Option WindDict := none
  wind_calm : Option Bool := none
  visibility : Option String := none
  sky_clear : Option Bool := none
  sky_clear_type : Option String := none
  weather : Option (List WxEntry) := none
  clouds : Option (List CloudLayer) := none
  temperature : Option Int := none
  dewpoint : Option Int := none
  altimeter : Option (String × PyNum) := none
  runway_visual_range : Option (List RvrEntry) := none
  trend : Option TrendInfo := none
  remarks : Option String := none
  automated_station : Option String := none
  weather_began : Option (List (String × Nat)) := none
  weather_ended : Option (List (String × Nat)) := none
  sea_level_pressure : Option Int := none
  military_weather_codes : Option (List String) := none
  military_weather_codes_tempo : Option Bool := none
  maintenance_required : Option Bool := none
  sensor_failures : Option (List String) := none
  parse_error : Option String := none
deriving Repr, DecidableEq

/-- `get_ordinal` of the METAR module (the input is always an `int` at the
call sites, so the `except` branch is unreachable). -/
def get_ordinal (i : Nat) : String :=
  if 10 ≤ i % 100 && i % 100 ≤ 20 then "th"
  else if i % 10 = 1 then "st"
  else if i % 10 = 2 then "nd"
  else if i % 10 = 3 then "rd"
  else "th"

/-- `^(METAR|SPECI)\s`: returns the report type and the remaining body
(the full subject when the prefix is absent). -/
def metarReportType (cs : List Char) : String × List Char :=
  let tryKw (k : List Char) : Option (String × List Char) :=
    if startsWithL k cs then
      match cs.drop 5 with
      | c :: r => if isSpaceChar c then some (String.mk k, r) else none
      | [] => none
    else none
  match oor (tryKw ['M', 'E', 'T', 'A', 'R'])
          (fun _ => tryKw ['S', 'P', 'E', 'C', 'I']) with
  | some p => p
  | none => ("METAR", cs)

def metarStation (cs : List Char) : Option String :=
  (takeUppers 4 (metarReportType cs).2).map fun p => String.mk p.1

def metarObsTime (cs : List Char) : Option (Nat × Nat × Nat) :=
  (research matchObsTimeAt cs).map fun t => t.2.1

def metarHasCavok (cs : List Char) : Bool :=
  containsWord cavokChars cs

def metarWindTok (cs : List Char) : Option WindTok :=
  (research matchWindAt cs).map fun t => t.2.1

def metarVariation (cs : List Char) : Option (Nat × Nat) :=
  (research matchVariationAt cs).map fun t => t.2.1

def metarWind (cs : List Char) : Option WindDict :=
  match metarWindTok cs, metarVariation cs with
  | some t, v =>
    some { direction := some t.direction,
           speed := some (knotsOfUnit t.unit t.speedRaw),
           gust := gustKnotsOfUnit t.unit t.gustRaw,
           variation := v }
  | none, some v => some { variation := some v }
  | none, none => none

def metarWindCalm (cs : List Char) : Option Bool :=
  match metarWindTok cs with
  | some t => if t.direction = "000" && t.speedRaw = 0 then some true else none
  | none => none

def metarVisibility (cs : List Char) : Option String :=
  if metarHasCavok cs then some "CAVOK"
  else
    match research matchVisMetarAt cs with
    | some (_, v, _) =>
      let t := String.mk v
      if containsSub ['S', 'M'] v then some (t ++ " (statute miles)")
      else some (t ++ " meters")
    | none => none

/-- `trend_start`: minimum of the `\bNOSIG\b`, `\bTEMPO\b`, `\bBECMG\b`,
`\bRMK\b` match starts (subject length when none matches). -/
def metarTrendStart (cs : List Char) : Nat :=
  let f (kw : List Char) (acc : Nat) : Nat :=
    match research (matchWordAt kw) cs with
    | some (i, _, _) => min acc i
    | none => acc
  f ['N', 'O', 'S', 'I', 'G']
    (f tempoChars (f becmgChars (f ['R', 'M', 'K'] cs.length)))

/-- `metar_body = metar[:trend_start]`. -/
def metarBody2 (cs : List Char) : List Char :=
  cs.take (metarTrendStart cs)

/-- `\b(SKC|CLR)\b` on the body section. -/
def matchSkyClearAt : MatcherT String := fun prev l =>
  oor ((matchWordAt ['S', 'K', 'C'] prev l).map fun p => ("SKC", p.2)) fun _ =>
    (matchWordAt ['C', 'L', 'R'] prev l).map fun p => ("CLR", p.2)

def metarSkyClearType (cs : List Char) : Option String :=
  (research matchSkyClearAt (metarBody2 cs)).map fun t => t.2.1

/-- The auxiliary visibility search `\b\d{4}\b|CAVOK|P6SM|\d+SM` that
delimits the start of the METAR weather section (only the first
alternative carries word boundaries). -/
def matchVisAuxAt : MatcherT Unit := fun prev l =>
  oor (match takeDigitChars 4 l with
       | some (_, r) =>
         if bdryBefore prev && bdryAfter r.head? then some ((), 4) else none
       | none => none) fun _ =>
  oor (if startsWithL cavokChars l then some ((), 5) else none) fun _ =>
  oor (if startsWithL ['P', '6', 'S', 'M'] l then some ((), 4) else none) fun _ =>
  (let n := digitRunLen l
   if n = 0 then none
   else
     match l.drop n with
     | 'S' :: 'M' :: _ => some ((), n + 2)
     | _ => none)

/-- `\bM?\d{2}/M?\d{2}\b` (temperature group used as a weather-section
delimiter); the optional `M` signs are greedy. -/
def matchTempBdryAt : MatcherT Unit := fun prev l =>
  if !(bdryBefore prev) then none else
  let part (l1 : List Char) : Option (List Char) :=
    oor (match l1 with
         | 'M' :: r => (takeDigits 2 r).map fun p => p.2
         | _ => none) fun _ =>
      (takeDigits 2 l1).map fun p => p.2
  match part l with
  | some ('/' :: r1) =>
    match part r1 with
    | some r2 =>
      if bdryAfter r2.head? then some ((), l.length - r2.length) else none
    | none => none
  | _ => none

/-- `\b(FEW|SCT|BKN|OVC|NSC|SKC)\b` (cloud keyword used as a
weather-section delimiter). -/
def matchCloudKwAt : MatcherT Unit := fun prev l =>
  if !(bdryBefore prev) then none else
  match firstMatch [['F', 'E', 'W'], ['S', 'C', 'T'], ['B', 'K', 'N'],
                    ['O', 'V', 'C'], ['N', 'S', 'C'], ['S', 'K', 'C']] l with
  | some (k, r) => if bdryAfter r.head? then some ((), k.length) else none
  | none => none

/-- `weather_search_start`: end of the auxiliary visibility match, else
(when a wind dictionary exists) end of the no-VRB wind match, else 0. -/
def metarWxStart (cs : List Char) : Nat :=
  let body := metarBody2 cs
  match research matchVisAuxAt body with
  | some (i, _, k) => i + k
  | none =>
    if (metarWind cs).isSome then
      match research matchWindEndAt body with
      | some (i, _, k) => i + k
      | none => 0
    else 0

/-- `weather_search_end`: start of the temperature group and of the cloud
keyword (searched in the slice after `weather_search_start`), whichever
comes first; body length by default. -/
def metarWxEnd (cs : List Char) : Nat :=
  let body := metarBody2 cs
  let start := metarWxStart cs
  let sliced := body.drop start
  let e1 :=
    match research matchTempBdryAt sliced with
    | some (i, _, _) => start + i
    | none => body.length
  match research matchCloudKwAt sliced with
  | some (i, _, _) => min e1 (start + i)
  | none => e1

def metarWeather (cs : List Char) : Option (List WxEntry) :=
  if metarHasCavok cs then none
  else
    let body := metarBody2 cs
    let start := metarWxStart cs
    let sec := (body.drop start).take (metarWxEnd cs - start)
    let m := refindall (matchWxAt false) sec
    if m.isEmpty then none else some (m.map wxEntryOfTok)

def metarClouds (cs : List Char) : Option (List CloudLayer) :=
  if metarHasCavok cs then none
  else if (metarSkyClearType cs).isSome then none
  else
    let m := refindall (matchCloudAt false) (metarBody2 cs)
    if m.isEmpty then none else some (m.map cloudLayerOfTok)

/-- `int(s.replace('M', '-'))` on a temperature capture. -/
def pyIntOfTempStr (t : List Char) : Int :=
  match t with
  | 'M' :: d => -(digitsVal d : Int)
  | d => (digitsVal d : Int)

def metarTempDew (cs : List Char) : Option (Int × Int) :=
  (research matchTempDewAt cs).map fun t =>
    (pyIntOfTempStr t.2.1.1, pyIntOfTempStr t.2.1.2)

def metarAltimeter (cs : List Char) : Option (String × PyNum) :=
  match research matchAltimeterAt cs with
  | some (_, (c, v), _) =>
    if c = 'Q' then some ("hPa", PyNum.int v)
    else some ("inHg", PyNum.float2 v)
  | none => none

def metarRvr (cs : List Char) : Option (List RvrEntry) :=
  let m := refindall matchRvrAt cs
  if m.isEmpty then none
  else
    some (m.map fun t =>
      { runway := "R" ++ t.runwayDigits ++ t.side, range := t.range,
        tendency := if t.tendency ≠ "" then some t.tendency else none })

def metarTrend (cs : List Char) : Option TrendInfo :=
  (research matchTrendAt cs).map fun t =>
    { type := t.2.1.1, details := t.2.1.2.map fun d => String.mk (stripL d) }

/-- The stripped remarks section, when `\bRMK\b` matches. -/
def metarRemarks (cs : List Char) : Option (List Char) :=
  (research matchRmkAt cs).map fun t => stripL t.2.1

/-- Insertion-ordered dictionary update (Python dict assignment). -/
def dictUpd (k : String) (v : Nat) : List (String × Nat) → List (String × Nat)
  | [] => [(k, v)]
  | (k', v') :: rest =>
    if k' = k then (k, v) :: rest else (k', v') :: dictUpd k v rest

def metarWxBegan (rem : List Char) : Option (List (String × Nat)) :=
  let ms := refindall matchWxTimeAt rem
  let began := ms.foldl
    (fun acc t => if t.2.1 = 'B' then dictUpd t.1 t.2.2 acc else acc) []
  if began.isEmpty then none else some began

def metarWxEnded (rem : List Char) : Option (List (String × Nat)) :=
  let ms := refindall matchWxTimeAt rem
  let ended := ms.foldl
    (fun acc t => if t.2.1 = 'E' then dictUpd t.1 t.2.2 acc else acc) []
  if ended.isEmpty then none else some ended

/-- The sea-level-pressure decode
`1000 + (slp_value if slp_value < 700 else slp_value - 1000)`. -/
def metarSlp (rem : List Char) : Option Int :=
  (research matchSlpAt rem).map fun t =>
    1000 + (if t.2.1 < 700 then (t.2.1 : Int) else (t.2.1 : Int) - 1000)

def metarMilitary (rem : List Char) : Option (List String) :=
  let m := refindall matchMilitaryAt rem
  if m.isEmpty then none else some m

def sensorCodes : List String :=
  ["RVRNO", "PWINO", "PNO", "FZRANO", "TSNO", "VISNO_LOC", "CHINO_LOC"]

def metarSensors (rem : List Char) : Option (List String) :=
  let f := sensorCodes.filter fun c => containsSub c.data rem
  if f.isEmpty then none else some f

/-- `parse_metar` on a non-empty string (the body of the `try` block; it
is total, so the `except` branch that would set `parse_error` is
unreachable in the embedding). -/
def parseMetarStr (s : String) : MetarParsed :=
  let cs := s.data
  let obs := metarObsTime cs
  let rem := metarRemarks cs
  { report_type := some (metarReportType cs).1,
    station_id := metarStation cs,
    observation_time := obs.map fun t => pad2 t.1 ++ pad2 t.2.1 ++ pad2 t.2.2 ++ "Z",
    observation_day := obs.map fun t => pad2 t.1,
    observation_day_ordinal := obs.map fun t => toString t.1 ++ get_ordinal t.1,
    observation_time_hm := obs.map fun t => pad2 t.2.1 ++ ":" ++ pad2 t.2.2 ++ "Z",
    observation_time_iso8601 :=
      obs.map fun t => "T" ++ pad2 t.2.1 ++ ":" ++ pad2 t.2.2 ++ ":00Z",
    report_modifier := (research matchModifierAt cs).map fun t => t.2.1,
    cavok := if metarHasCavok cs then some true else none,
    wind := metarWind cs,
    wind_calm := metarWindCalm cs,
    visibility := metarVisibility cs,
    sky_clear := (metarSkyClearType cs).map fun _ => true,
    sky_clear_type := metarSkyClearType cs,
    weather := metarWeather cs,
    clouds := metarClouds cs,
    temperature := (metarTempDew cs).map fun p => p.1,
    dewpoint := (metarTempDew cs).map fun p => p.2,
    altimeter := metarAltimeter cs,
    runway_visual_range := metarRvr cs,
    trend := metarTrend cs,
    remarks := rem.map String.mk,
    automated_station := rem.bind fun r => (research matchAOAt r).map fun t => t.2.1,
    weather_began := rem.bind metarWxBegan,
    weather_ended := rem.bind metarWxEnded,
    sea_level_pressure := rem.bind metarSlp,
    military_weather_codes := rem.bind metarMilitary,
    military_weather_codes_tempo :=
      rem.bind fun r => if containsWord tempoChars r then some true else none,
    maintenance_required := rem.map fun r => containsSub ['$'] r,
    sensor_failures := rem.bind metarSensors,
    parse_error := none }

/-- `parse_metar` entry point: `None`/non-string inputs are modelled by
`none`, and a falsy (empty) string also returns the empty dictionary. -/
def parseMetarPy : Option String → MetarParsed
  | none => {}
  | some s => if s = "" then {} else parseMetarStr s

/-! ## `parse_taf` -/

structure TempEntry where
  value : Int
  time : String
deriving Repr, DecidableEq

structure TempForecast where
  max_temperature : Option (List TempEntry) := none
  min_temperature : Option (List TempEntry) := none
deriving Repr, DecidableEq

structure QnhEntry where
  unit : String
  value : PyNum
deriving Repr, DecidableEq

structure TafParsed where
  station_id : Option String := none
  issue_time : Option String := none
  is_amended : Option Bool := none
  is_corrected : Option Bool := none
  is_nil : Option Bool := none
  is_auto : Option Bool := none
  amd_not_sked : Option Bool := none
  valid_from : Option String := none
  valid_to : Option String := none
  temperature_forecast : Option TempForecast := none
  qnh_forecast : Option (List QnhEntry) := none
  remarks : Option String := none
  base_forecast : Option ForecastGroup := none
  forecast_changes : Option (List ForecastGroup) := none
  parse_error : Option String := none
deriving Repr, DecidableEq

def tafTempForecast (cs : List Char) : Option TempForecast :=
  let tx := refindall (matchTempFcstAt 'X') cs
  let tn := refindall (matchTempFcstAt 'N') cs
  if tx.isEmpty && tn.isEmpty then none
  else
    some { max_temperature :=
             if tx.isEmpty then none
             else some (tx.map fun p => ⟨pyIntOfTempStr p.1, String.mk p.2⟩),
           min_temperature :=
             if tn.isEmpty then none
             else some (tn.map fun p => ⟨pyIntOfTempStr p.1, String.mk p.2⟩) }

def tafQnh (cs : List Char) : Option (List QnhEntry) :=
  let qs := refindall matchQnhAt cs
  if qs.isEmpty then none
  else some (qs.map fun q => ⟨"inHg", PyNum.float2 (digitsVal q)⟩)

def tafRemarks (cs : List Char) : Option (List Char) :=
  (research matchRmkAt cs).map fun t => stripL t.2.1

/-- `taf_without_remarks`: `taf[:taf.index(RMK)].strip()` when `\bRMK\b`
matched, else the whole subject (unstripped).  A word match implies a
substring occurrence, so the `index` lookup cannot fail. -/
def tafWithoutRemarks (cs : List Char) : List Char :=
  match research matchRmkAt cs with
  | some _ =>
    match indexOfSub ['R', 'M', 'K'] cs with
    | some i => stripL (cs.take i)
    | none => cs
  | none => cs

/-- Start position of the first change indicator in the remarks-stripped
body. -/
def tafFirstChange (cs : List Char) : Option Nat :=
  (research matchFirstChangeAt cs).map fun t => t.1

/-- `base_text`: everything before the first change indicator (the whole
remarks-stripped body when none is found), stripped. -/
def tafBaseText (cs : List Char) : List Char :=
  match tafFirstChange cs with
  | some i => stripL (cs.take i)
  | none => stripL cs

/-- `changes_text`: the remarks-stripped body from the first change
indicator on, stripped; absent when there is no indicator. -/
def tafChangesText (cs : List Char) : Option (List Char) :=
  (tafFirstChange cs).map fun i => stripL (cs.drop i)

/-- The change groups built from the filtered candidate spans: strip each
captured text, dispatch on its leading keyword (`continue` when none
applies) and run `_parse_forecast_group`. -/
def tafChangeGroupsOf (ct : List Char) : List ForecastGroup :=
  (tafFilteredMatches ct).filterMap fun m =>
    let g := stripL m.text
    (segGroupType g).map fun ty => parseForecastGroup (String.mk g) ty

def amdChars : List Char := ['A', 'M', 'D']
def corChars : List Char := ['C', 'O', 'R']
def autoChars : List Char := ['A', 'U', 'T', 'O']

/-- `parse_taf` on a non-empty string (the body of the `try` block, total
in the embedding). -/
def parseTafStr (s : String) : TafParsed :=
  let cs := s.data
  let tw := tafWithoutRemarks cs
  { station_id := tafStationSearch cs,
    issue_time := (research matchIssueAt cs).map fun t => t.2.1,
    is_amended := some (containsWord amdChars cs),
    is_corrected := some (containsWord corChars cs),
    is_nil := some (containsWord "NIL TAF".data cs),
    is_auto := some (containsWord autoChars cs),
    amd_not_sked := some (containsWord "AMD NOT SKED".data cs),
    valid_from := (research matchValidPeriodAt cs).map fun t => t.2.1.1,
    valid_to := (research matchValidPeriodAt cs).map fun t => t.2.1.2,
    temperature_forecast := tafTempForecast cs,
    qnh_forecast := tafQnh cs,
    remarks := (tafRemarks cs).map String.mk,
    base_forecast := some (parseForecastGroup (String.mk (tafBaseText tw)) "BASE"),
    forecast_changes := (tafChangesText tw).map tafChangeGroupsOf,
    parse_error := none }

/-- `parse_taf` entry point. -/
def parseTafPy : Option String → TafParsed
  | none => {}
  | some s => if s = "" then {} else parseTafStr s

/-- The `forecast_changes` lookup with default `[]`, the view both formatters use. -/
def changesView (p : TafParsed) : List ForecastGroup :=
  p.forecast_changes.getD []

/-! ## `format_metar` -/

/-- `str.strip()` on a `String`. -/
def strS (s : String) : String :=
  String.mk (stripL s.data)

def modifierDesc (m : String) : String :=
  if m = "AUTO" then "Automated"
  else if m = "COR" then "Corrected"
  else if m = "CCA" then "First Correction"
  else if m = "CCB" then "Second Correction"
  else if m = "CCC" then "Third Correction"
  else if m = "CCD" then "Fourth Correction"
  else if m = "CCE" then "Fifth Correction"
  else if m = "CCF" then "Sixth Correction"
  else m

/-- `weather_code_descriptions.get(c, c)` of `format_metar` (the METAR map
has no `NSW` entry). -/
def wxCodeDescM (c : String) : String :=
  if c = "DZ" then "Drizzle" else if c = "RA" then "Rain"
  else if c = "SN" then "Snow" else if c = "SG" then "Snow Grains"
  else if c = "IC" then "Ice Crystals" else if c = "PL" then "Ice Pellets"
  else if c = "GR" then "Hail" else if c = "GS" then "Small Hail/Snow Pellets"
  else if c = "UP" then "Unknown Precipitation" else if c = "BR" then "Mist"
  else if c = "FG" then "Fog" else if c = "FU" then "Smoke"
  else if c = "VA" then "Volcanic Ash" else if c = "DU" then "Dust"
  else if c = "SA" then "Sand" else if c = "HZ" then "Haze"
  else if c = "PY" then "Spray" else if c = "SQ" then "Squall"
  else if c = "SS" then "Sandstorm" else if c = "DS" then "Duststorm"
  else if c = "FC" then "Funnel Cloud"
  else if c = "+" then "Heavy" else if c = "-" then "Light"
  else if c = "VC" then "In the vicinity"
  else if c = "MI" then "Shallow" else if c = "BC" then "Patches"
  else if c = "DR" then "Drifting" else if c = "BL" then "Blowing"
  else if c = "SH" then "Showers" else if c = "TS" then "Thunderstorm"
  else if c = "FZ" then "Freezing"
  else c

/-- One weather description: intensity, descriptor and phenomenon parts
joined with spaces and stripped. -/
def wxDescriptionM (w : WxEntry) : String :=
  let parts :=
    (match w.intensity with | some i => [wxCodeDescM i] | none => []) ++
    (match w.descriptor with | some dd => [wxCodeDescM dd] | none => []) ++
    (match w.phenomenon with | some p => [wxCodeDescM p] | none => [])
  strS (String.intercalate " " parts)

def cloudDescM (c : String) : String :=
  if c = "FEW" then "Few" else if c = "SCT" then "Scattered"
  else if c = "BKN" then "Broken" else if c = "OVC" then "Overcast"
  else if c = "NSC" then "No Significant Cloud"
  else if c = "VV" then "Vertical Visibility (sky obscured)"
  else c

def sensorDesc (c : String) : String :=
  if c = "RVRNO" then "Runway Visual Range"
  else if c = "PWINO" then "Present weather identifier sensor"
  else if c = "PNO" then "Tipping bucket rain gauge"
  else if c = "FZRANO" then "Freezing rain sensor"
  else if c = "TSNO" then "Lightning detection system"
  else if c = "VISNO_LOC" then "Secondary visibility sensor"
  else if c = "CHINO_LOC" then "Secondary ceiling height sensor"
  else c

def militaryDesc (c : String) : String :=
  if c = "BLU" then "Blue" else if c = "WHT" then "White"
  else if c = "GRN" then "Green" else if c = "YLO1" then "Yellow1"
  else if c = "YLO2" then "Yellow2" else if c = "AMB" then "Amber"
  else if c = "RED" then "Red" else c

/-- The line list built by `format_metar` (joined with `eol` by the entry
point; the `except` wrapper that would append a formatting-error line is
unreachable in the embedding). -/
def metarLines (d : MetarParsed) : List String :=
  (if d.report_type.getD "METAR" = "SPECI" then
     ["Report Type: SPECI (Special Observation)"]
   else ["Report Type: METAR (Routine Observation)"]) ++
  (match d.report_modifier with
   | some m => ["Report Modifier: " ++ modifierDesc m]
   | none => []) ++
  ["Station: " ++ d.station_id.getD "N/A",
   "Observation Day: " ++ d.observation_day_ordinal.getD "N/A",
   "Observation Time: " ++ d.observation_time_hm.getD "N/A"] ++
  (if d.cavok.getD false then
     ["CAVOK: Ceiling and Visibility OK",
      "  - Visibility ≥10 km",
      "  - No clouds below 5000 ft",
      "  - No cumulonimbus or towering cumulus",
      "  - No significant weather"]
   else []) ++
  (if d.wind_calm.getD false then ["Wind: Calm"]
   else
     match d.wind with
     | some w =>
       let dir := w.direction.getD "N/A"
       let speed := w.speed.getD 0
       let ws0 :=
         if dir = "VRB" then "Variable at " ++ toString speed ++ " KT"
         else dir ++ "° at " ++ toString speed ++ " KT"
       let ws1 :=
         match w.gust with
         | some g => if g ≠ 0 then ws0 ++ " gusting to " ++ toString g ++ " KT" else ws0
         | none => ws0
       let ws2 :=
         match w.variation with
         | some v =>
           ws1 ++ " (varying between " ++ toString v.1 ++ "° and " ++
             toString v.2 ++ "°)"
         | none => ws1
       ["Wind: " ++ ws2]
     | none => []) ++
  (if d.cavok.getD false then []
   else ["Visibility: " ++ d.visibility.getD "N/A"]) ++
  (if d.sky_clear.getD false then
     match d.sky_clear_type with
     | some "SKC" => ["Sky Condition: SKC (Sky Clear - manually observed)"]
     | some "CLR" => ["Sky Condition: CLR (Clear - automated observation)"]
     | _ => []
   else []) ++
  (if d.cavok.getD false then []
   else
     match d.weather with
     | some wxs =>
       let descs := wxs.map wxDescriptionM
       if descs.isEmpty then []
       else ["Weather: " ++ String.intercalate ", " descs]
     | none => []) ++
  (if d.cavok.getD false || d.sky_clear.getD false then []
   else
     match d.clouds with
     | some cls =>
       ["Clouds:"] ++
         cls.map fun c =>
           match c.height with
           | some h => "  - " ++ cloudDescM c.type ++ " at " ++ toString (h * 100) ++ " feet"
           | none => "  - " ++ cloudDescM c.type ++ " at unknown height"
     | none => []) ++
  [ "Temperature/Dewpoint: " ++
      (match d.temperature with | some t => toString t | none => "N/A") ++ "/" ++
      (match d.dewpoint with | some t => toString t | none => "N/A") ++ " °C" ] ++
  (match d.altimeter with
   | some (u, v) =>
     if u = "hPa" then ["Altimeter: " ++ v.render ++ " hPa"]
     else if u = "inHg" then ["Altimeter: " ++ v.render ++ " inHg"]
     else []
   | none => []) ++
  (match d.runway_visual_range with
   | some rs =>
     if rs.isEmpty then []
     else
       ["Runway Visual Range:"] ++
         rs.map fun r =>
           let td :=
             match r.tendency.getD "" with
             | "D" => "Decreasing"
             | "N" => "No change"
             | "U" => "Increasing"
             | _ => ""
           let ts := if td ≠ "" then " (" ++ td ++ ")" else ""
           "  - " ++ r.runway ++ ": " ++ toString r.range ++ " meters" ++ ts
   | none => []) ++
  (match d.sea_level_pressure with
   | some v => if v ≠ 0 then ["Sea Level Pressure: " ++ toString v ++ " mb"] else []
   | none => []) ++
  (match d.automated_station with
   | some "AO1" => ["Station Type: AO1 (Automated without precipitation discriminator)"]
   | some "AO2" => ["Station Type: AO2 (Automated with precipitation discriminator)"]
   | _ => []) ++
  (if (d.weather_began.map fun b => !b.isEmpty).getD false ||
      (d.weather_ended.map fun b => !b.isEmpty).getD false then
     ["Weather Event Times:"] ++
       ((d.weather_began.getD []).map fun p =>
         "  - " ++ p.1 ++ " began at :" ++ pad2 p.2 ++ " past the hour") ++
       ((d.weather_ended.getD []).map fun p =>
         "  - " ++ p.1 ++ " ended at :" ++ pad2 p.2 ++ " past the hour")
   else []) ++
  (match d.military_weather_codes with
   | some cs =>
     if cs.isEmpty then []
     else
       let tr := cs.map militaryDesc
       if d.military_weather_codes_tempo.getD false && 2 ≤ tr.length then
         ["Military Weather Codes: " ++ tr.headI ++ " temporary " ++ tr.tail.headI]
       else ["Military Weather Codes: " ++ String.intercalate ", " tr]
   | none => []) ++
  (match d.trend with
   | some t =>
     if t.type = "NOSIG" then
       ["Trend: NOSIG (No significant change expected in next 2 hours)"]
     else if t.type = "TEMPO" then
       let ds := match t.details with
         | some dt => if dt ≠ "" then " - " ++ dt else ""
         | none => ""
       ["Trend: TEMPO (Temporary conditions expected)" ++ ds]
     else if t.type = "BECMG" then
       let ds := match t.details with
         | some dt => if dt ≠ "" then " - " ++ dt else ""
         | none => ""
       ["Trend: BECMG (Becoming - permanent change expected)" ++ ds]
     else []
   | none => []) ++
  (if d.maintenance_required.getD false then
     ["Maintenance is required for this station."]
   else []) ++
  (match d.sensor_failures with
   | some ss =>
     if ss.isEmpty then []
     else ["Sensors not operating: " ++ String.intercalate ", " (ss.map sensorDesc)]
   | none => []) ++
  (match d.remarks with
   | some r => if r ≠ "" then ["Remarks: " ++ r] else []
   | none => []) ++
  (match d.parse_error with
   | some e => ["Parse Error: " ++ e]
   | none => [])

/-- `format_metar` entry point: `none` models a non-dictionary argument,
and an empty dictionary (the all-`none` record) is falsy, both yielding
the sentinel string. -/
def formatMetarPy (p : Option MetarParsed) (eol : String) : String :=
  match p with
  | none => "Invalid METAR data"
  | some d =>
    if d = {} then "Invalid METAR data"
    else String.intercalate eol (metarLines d)

/-! ## `format_taf` -/

/-- `_get_ordinal` of the TAF module: the number with its suffix. -/
def tafOrdinal (n : Nat) : String :=
  toString n ++
    (if 10 ≤ n % 100 && n % 100 ≤ 20 then "th"
     else if n % 10 = 1 then "st"
     else if n % 10 = 2 then "nd"
     else if n % 10 = 3 then "rd"
     else "th")

/-- `_format_time_period`: a four-character `DDHH` string becomes
`HH00 on DDth`; anything else (wrong length, or a non-digit string, whose
`int` conversion raises and is caught) is returned unchanged. -/
def formatTimePeriod (t : String) : String :=
  if t.length ≠ 4 then t
  else if t.data.all (·.isDigit) then
    let day := digitsVal (t.data.take 2)
    let hour := digitsVal (t.data.drop 2)
    pad2 hour ++ "00 on " ++ tafOrdinal day
  else t

/-- `weather_code_descriptions.get(c, c)` of the TAF formatters (this map
also has an `NSW` entry, though the `NSW` phenomenon is special-cased
before the lookup). -/
def wxCodeDescT (c : String) : String :=
  if c = "NSW" then "No Significant Weather" else wxCodeDescM c

/-- One TAF weather description: `NSW` becomes the fixed phrase, anything
else is the stripped space-join of the code descriptions. -/
def wxDescriptionT (w : WxEntry) : String :=
  if w.phenomenon.getD "" = "NSW" then "No Significant Weather"
  else
    let parts :=
      (match w.intensity with | some i => [wxCodeDescT i] | none => []) ++
      (match w.descriptor with | some dd => [wxCodeDescT dd] | none => []) ++
      (match w.phenomenon with | some p => [wxCodeDescT p] | none => [])
    strS (String.intercalate " " parts)

def cloudDescT (c : String) : String :=
  if c = "FEW" then "Few" else if c = "SCT" then "Scattered"
  else if c = "BKN" then "Broken" else if c = "OVC" then "Overcast"
  else if c = "NSC" then "No Significant Cloud" else if c = "SKC" then "Sky Clear"
  else if c = "VV" then "Vertical Visibility"
  else c

def convectiveDesc (c : String) : String :=
  if c = "CB" then " (Cumulonimbus)"
  else if c = "TCU" then " (Towering Cumulus)"
  else ""

/-- The flag list shared by both TAF formatters, with the HTML variant
prefixing warning emoji on the first two flags. -/
def tafFlags (p : TafParsed) (isHtml : Bool) : List String :=
  (if p.is_amended.getD false then
     [(if isHtml then "&#9888;&#65039; " else "") ++ "AMENDED"] else []) ++
  (if p.is_corrected.getD false then
     [(if isHtml then "&#9888;&#65039; " else "") ++ "CORRECTED"] else []) ++
  (if p.is_nil.getD false then ["NIL (Forecast Suspended)"] else []) ++
  (if p.is_auto.getD false then ["AUTOMATED"] else []) ++
  (if p.amd_not_sked.getD false then ["AMD NOT SKED (Updates not scheduled)"] else [])

/-- `format_conditions` of `_format_taf_text`. -/
def tafCondLines (f : ForecastGroup) (indent : String) : List String :=
  (match f.wind_shear with
   | some ws =>
     let s0 := "Wind shear at " ++ toString ws.height ++ " feet: " ++
       ws.direction ++ "&#176; at " ++ toString ws.speed ++ " KT"
     let s1 :=
       match ws.gust with
       | some g => if g ≠ 0 then s0 ++ " gusting to " ++ toString g ++ " KT" else s0
       | none => s0
     [indent ++ "Wind Shear: " ++ s1]
   | none => []) ++
  (match f.wind with
   | some w =>
     let s0 :=
       if w.direction = "VRB" then "Variable at " ++ toString w.speed ++ " KT"
       else w.direction ++ "&#176; at " ++ toString w.speed ++ " KT"
     let s1 :=
       match w.gust with
       | some g => if g ≠ 0 then s0 ++ " gusting to " ++ toString g ++ " KT" else s0
       | none => s0
     [indent ++ "Wind: " ++ s1]
   | none => []) ++
  (match f.visibility with
   | some v => if v ≠ "" then [indent ++ "Visibility: " ++ v] else []
   | none => []) ++
  (match f.weather with
   | some wxs =>
     if wxs.isEmpty then []
     else
       let descs := wxs.map wxDescriptionT
       if descs.isEmpty then []
       else [indent ++ "Weather: " ++ String.intercalate ", " descs]
   | none => []) ++
  (match f.clouds with
   | some cls =>
     if cls.isEmpty then []
     else
       [indent ++ "Clouds:"] ++
         cls.map fun c =>
           let cv := convectiveDesc (c.convective.getD "")
           match c.height with
           | some h =>
             indent ++ "  - " ++ cloudDescT c.type ++ " at " ++
               toString (h * 100) ++ " feet" ++ cv
           | none =>
             indent ++ "  - " ++ cloudDescT c.type ++ " at unknown height" ++ cv
   | none => [])

/-- The per-change header of `_format_taf_text` (no header for an unknown
type, but the condition lines still follow). -/
def tafChangeHeader (i : Nat) (c : ForecastGroup) : List String :=
  let fmt (t : String) : String :=
    if t = "N/A" then "N/A" else formatTimePeriod t
  let ft := fmt (c.valid_from.getD "N/A")
  let tt := fmt (c.valid_to.getD "N/A")
  if c.type = "FM" then
    ["  " ++ toString i ++ ". FROM " ++ ft ++ ":"]
  else if c.type = "PROB30 TEMPO" then
    ["  " ++ toString i ++ ". PROB30 TEMPORARY " ++ ft ++ " to " ++ tt ++ ":"]
  else if c.type = "PROB40 TEMPO" then
    ["  " ++ toString i ++ ". PROB40 TEMPORARY " ++ ft ++ " to " ++ tt ++ ":"]
  else if c.type = "PROB30" || c.type = "PROB40" then
    ["  " ++ toString i ++ ". " ++ c.type ++ " " ++ ft ++ " to " ++ tt ++ ":"]
  else if c.type = "TEMPO" then
    ["  " ++ toString i ++ ". TEMPORARY " ++ ft ++ " to " ++ tt ++ ":"]
  else if c.type = "BECMG" then
    ["  " ++ toString i ++ ". BECOMING " ++ ft ++ " to " ++ tt ++ ":"]
  else []

/-- The line list of `_format_taf_text`. -/
def tafTextLines (p : TafParsed) : List String :=
  ["Station: " ++ p.station_id.getD "N/A",
   "Issue Time: " ++ p.issue_time.getD "N/A" ++ "Z"] ++
  [ "Valid Period: " ++
      (let vf := p.valid_from.getD "N/A"
       if vf = "N/A" then "N/A" else formatTimePeriod vf) ++ " to " ++
      (let vt := p.valid_to.getD "N/A"
       if vt = "N/A" then "N/A" else formatTimePeriod vt) ] ++
  (let fl := tafFlags p false
   if fl.isEmpty then [] else ["Type: " ++ String.intercalate ", " fl]) ++
  [""] ++
  (match p.base_forecast with
   | some b => ["BASE FORECAST:"] ++ tafCondLines b "  " ++ [""]
   | none => []) ++
  (let ch := changesView p
   if ch.isEmpty then []
   else
     ["FORECAST CHANGES:"] ++
       (ch.enum.flatMap fun ic =>
         tafChangeHeader (ic.1 + 1) ic.2 ++ tafCondLines ic.2 "     " ++ [""])) ++
  (match p.temperature_forecast with
   | some tf =>
     ["TEMPERATURE FORECAST:"] ++
       ((tf.max_temperature.getD []).map fun t =>
         "  Maximum: " ++ toString t.value ++ "&#176;C at " ++ t.time ++ "Z") ++
       ((tf.min_temperature.getD []).map fun t =>
         "  Minimum: " ++ toString t.value ++ "&#176;C at " ++ t.time ++ "Z") ++
       [""]
   | none => []) ++
  (let qs := p.qnh_forecast.getD []
   if qs.isEmpty then []
   else
     ["PRESSURE FORECAST:"] ++
       (qs.enum.map fun iq =>
         "  " ++ toString (iq.1 + 1) ++ ". QNH: " ++ iq.2.value.render ++
           " " ++ iq.2.unit) ++
       [""]) ++
  (match p.remarks with
   | some r => if r ≠ "" then ["Remarks: " ++ r] else []
   | none => []) ++
  (match p.parse_error with
   | some e => ["Parse Error: " ++ e]
   | none => [])

/-- `_get_wind_emoji`. -/
def getWindEmoji (speed : Int) (gust : Option Int) : String :=
  if (match gust with | some g => g ≠ 0 && 25 < g | none => false) then
    "&#127786;&#65039;"
  else if 30 < speed then "&#127786;&#65039;"
  else if 20 < speed then "&#128168;"
  else if 10 < speed then "&#128168;"
  else "&#127788;&#65039;"

/-- `_get_weather_emoji`: first significant phenomenon wins. -/
def getWeatherEmoji : List WxEntry → String
  | [] => ""
  | wx :: rest =>
    let p := wx.phenomenon.getD ""
    let d := wx.descriptor.getD ""
    let i := wx.intensity.getD ""
    if d = "TS" || p = "TS" then "&#9928;&#65039;"
    else if p = "SN" then
      (if i = "-" then "&#10052;&#65039;" else "&#127784;&#65039;")
    else if d = "FZ" then "&#10052;&#65039;"
    else if p = "RA" then
      if d = "SH" then "&#127782;&#65039;"
      else if i = "+" then "&#9928;&#65039;"
      else if i = "-" then "&#127782;&#65039;"
      else "&#127783;&#65039;"
    else if d = "SH" then "&#127782;&#65039;"
    else if p = "DZ" then "&#127782;&#65039;"
    else if p = "FG" || p = "BR" || p = "HZ" then "&#127787;&#65039;"
    else if p = "DU" || p = "SA" then "&#127964;&#65039;"
    else getWeatherEmoji rest

/-- `_get_cloud_emoji`. -/
def getCloudEmoji (c : String) : String :=
  if c = "SKC" || c = "NSC" then "&#9728;&#65039;"
  else if c = "FEW" then "&#9925;"
  else if c = "SCT" then "&#9925;"
  else if c = "BKN" || c = "OVC" then "&#9729;&#65039;"
  else if c = "VV" then "&#127787;&#65039;"
  else "&#9729;&#65039;"

/-- `_get_convective_emoji`. -/
def getConvectiveEmoji (c : String) : String :=
  if c = "CB" then "&#9928;&#65039;"
  else if c = "TCU" then "&#127785;&#65039;"
  else ""

/-- `_get_change_type_emoji`. -/
def getChangeTypeEmoji (c : String) : String :=
  if c = "BASE" then "&#127780;&#65039;"
  else if c = "TEMPO" then "&#9201;&#65039;"
  else if c = "BECMG" then "&#128200;"
  else if c = "PROB30" then "&#127922;"
  else if c = "PROB40" then "&#127922;"
  else if c = "PROB30 TEMPO" then "&#127922;"
  else if c = "PROB40 TEMPO" then "&#127922;"
  else if c = "FM" then "&#9193;"
  else "&#128260;"

/-- `_get_taf_css`: the embedded style block, verbatim. -/
def tafCss : String :=
  "<style>\n" ++
  ".taf-report \x7b\n" ++
  "  font-family: -apple-system, BlinkMacSystemFont, \x27Segoe UI\x27, Roboto, Oxygen, Ubuntu, sans-serif;\n" ++
  "  line-height: 1.6;\n" ++
  "  color: #333;\n" ++
  "\x7d\n" ++
  ".taf-report .label \x7b\n" ++
  "  font-weight: 600;\n" ++
  "  color: #2c3e50;\n" ++
  "\x7d\n" ++
  ".taf-report .forecast-section \x7b\n" ++
  "  margin-top: 20px;\n" ++
  "  margin-bottom: 10px;\n" ++
  "  font-size: 1.1em;\n" ++
  "  border-bottom: 2px solid #3498db;\n" ++
  "  padding-bottom: 5px;\n" ++
  "\x7d\n" ++
  ".taf-report .section-title \x7b\n" ++
  "  font-weight: 700;\n" ++
  "  color: #2980b9;\n" ++
  "\x7d\n" ++
  ".taf-report .change-group \x7b\n" ++
  "  margin-top: 15px;\n" ++
  "  margin-bottom: 8px;\n" ++
  "  font-size: 1.05em;\n" ++
  "  color: #34495e;\n" ++
  "\x7d\n" ++
  ".taf-report .change-type \x7b\n" ++
  "  font-weight: 600;\n" ++
  "  color: #e74c3c;\n" ++
  "\x7d\n" ++
  ".taf-report .forecast-content \x7b\n" ++
  "  margin-left: 0;\n" ++
  "\x7d\n" ++
  ".taf-report .change-content \x7b\n" ++
  "  margin-left: 20px;\n" ++
  "  padding-left: 10px;\n" ++
  "  border-left: 3px solid #ecf0f1;\n" ++
  "\x7d\n" ++
  ".taf-report ul \x7b\n" ++
  "  margin-top: 5px;\n" ++
  "  margin-bottom: 10px;\n" ++
  "  padding-left: 20px;\n" ++
  "\x7d\n" ++
  ".taf-report li \x7b\n" ++
  "  margin-bottom: 3px;\n" ++
  "\x7d\n" ++
  "</style>"

/-- `format_conditions_html` of `_format_taf_html`. -/
def tafCondLinesHtml (f : ForecastGroup) (indent : String) : List String :=
  (match f.wind_shear with
   | some ws =>
     let s0 := "Wind shear at " ++ toString ws.height ++ " feet: " ++
       ws.direction ++ "&#176; at " ++ toString ws.speed ++ " KT"
     let s1 :=
       match ws.gust with
       | some g => if g ≠ 0 then s0 ++ " gusting to " ++ toString g ++ " KT" else s0
       | none => s0
     [indent ++ "<p><span class=\"label\">Wind Shear:</span> &#128314; " ++ s1 ++ "</p>"]
   | none => []) ++
  (match f.wind with
   | some w =>
     let emoji := getWindEmoji w.speed w.gust
     let s0 :=
       if w.direction = "VRB" then "Variable at " ++ toString w.speed ++ " KT"
       else w.direction ++ "&#176; at " ++ toString w.speed ++ " KT"
     let s1 :=
       match w.gust with
       | some g => if g ≠ 0 then s0 ++ " gusting to " ++ toString g ++ " KT" else s0
       | none => s0
     [indent ++ "<p><span class=\"label\">Wind:</span> " ++ emoji ++ " " ++ s1 ++ "</p>"]
   | none => []) ++
  (match f.visibility with
   | some v =>
     if v ≠ "" then
       let ve := if v = "CAVOK" then "&#9728;&#65039;" else "&#128065;&#65039;"
       [indent ++ "<p><span class=\"label\">Visibility:</span> " ++ ve ++ " " ++ v ++ "</p>"]
     else []
   | none => []) ++
  (match f.weather with
   | some wxs =>
     if wxs.isEmpty then []
     else
       let descs := wxs.map wxDescriptionT
       if descs.isEmpty then []
       else
         let we := getWeatherEmoji wxs
         [indent ++ "<p><span class=\"label\">Weather:</span> " ++ we ++ " " ++
            String.intercalate ", " descs ++ "</p>"]
   | none => []) ++
  (match f.clouds with
   | some cls =>
     if cls.isEmpty then []
     else
       [indent ++ "<p><span class=\"label\">Clouds:</span></p>", indent ++ "<ul>"] ++
         (cls.map fun c =>
           let conv := c.convective.getD ""
           let ce := getCloudEmoji c.type
           let cve := if conv ≠ "" then getConvectiveEmoji conv else ""
           let cvs := convectiveDesc conv
           match c.height with
           | some h =>
             indent ++ "  <li>" ++ ce ++ cve ++ " " ++ cloudDescT c.type ++
               " at " ++ toString (h * 100) ++ " feet" ++ cvs ++ "</li>"
           | none =>
             indent ++ "  <li>" ++ ce ++ cve ++ " " ++ cloudDescT c.type ++
               " at unknown height" ++ cvs ++ "</li>") ++
         [indent ++ "</ul>"]
   | none => [])

/-- The per-change header of `_format_taf_html`. -/
def tafChangeHeaderHtml (i : Nat) (c : ForecastGroup) : List String :=
  let emoji := getChangeTypeEmoji c.type
  let fmt (t : String) : String :=
    if t = "N/A" then "N/A" else formatTimePeriod t
  let ft := fmt (c.valid_from.getD "N/A")
  let tt := fmt (c.valid_to.getD "N/A")
  if c.type = "FM" then
    ["    <h4 class=\"change-group\">" ++ toString i ++ ". " ++ emoji ++
       " <span class=\"change-type\">FROM</span> " ++ ft ++ ":</h4>"]
  else if c.type = "PROB30 TEMPO" then
    ["    <h4 class=\"change-group\">" ++ toString i ++ ". " ++ emoji ++
       " <span class=\"change-type\">PROB30 TEMPORARY</span> " ++ ft ++ " to " ++ tt ++ ":</h4>"]
  else if c.type = "PROB40 TEMPO" then
    ["    <h4 class=\"change-group\">" ++ toString i ++ ". " ++ emoji ++
       " <span class=\"change-type\">PROB40 TEMPORARY</span> " ++ ft ++ " to " ++ tt ++ ":</h4>"]
  else if c.type = "PROB30" || c.type = "PROB40" then
    ["    <h4 class=\"change-group\">" ++ toString i ++ ". " ++ emoji ++
       " <span class=\"change-type\">" ++ c.type ++ "</span> " ++ ft ++ " to " ++ tt ++ ":</h4>"]
  else if c.type = "TEMPO" then
    ["    <h4 class=\"change-group\">" ++ toString i ++ ". " ++ emoji ++
       " <span class=\"change-type\">TEMPORARY</span> " ++ ft ++ " to " ++ tt ++ ":</h4>"]
  else if c.type = "BECMG" then
    ["    <h4 class=\"change-group\">" ++ toString i ++ ". " ++ emoji ++
       " <span class=\"change-type\">BECOMING</span> " ++ ft ++ " to " ++ tt ++ ":</h4>"]
  else []

/-- The line list of `_format_taf_html` (joined with a newline, never with
the caller-supplied `eol`). -/
def tafHtmlLines (p : TafParsed) : List String :=
  ["<div class=\"taf-report\">", tafCss] ++
  ["  <p><span class=\"label\">Station:</span> " ++ p.station_id.getD "N/A" ++ "</p>",
   "  <p><span class=\"label\">Issue Time:</span> " ++ p.issue_time.getD "N/A" ++ "Z &#9200;</p>"] ++
  [ "  <p><span class=\"label\">Valid Period:</span> &#128197; " ++
      (let vf := p.valid_from.getD "N/A"
       if vf = "N/A" then "N/A" else formatTimePeriod vf) ++ " to " ++
      (let vt := p.valid_to.getD "N/A"
       if vt = "N/A" then "N/A" else formatTimePeriod vt) ++ "</p>" ] ++
  (let fl := tafFlags p true
   if fl.isEmpty then []
   else ["  <p><span class=\"label\">Type:</span> " ++ String.intercalate ", " fl ++ "</p>"]) ++
  (match p.base_forecast with
   | some b =>
     ["  <h3 class=\"forecast-section\">" ++ getChangeTypeEmoji "BASE" ++
        " <span class=\"section-title\">BASE FORECAST</span></h3>",
      "  <div class=\"forecast-content\">"] ++
       tafCondLinesHtml b "    " ++ ["  </div>"]
   | none => []) ++
  (let ch := changesView p
   if ch.isEmpty then []
   else
     ["  <h3 class=\"forecast-section\">&#128260; <span class=\"section-title\">FORECAST CHANGES</span></h3>",
      "  <div class=\"forecast-content\">"] ++
       (ch.enum.flatMap fun ic =>
         tafChangeHeaderHtml (ic.1 + 1) ic.2 ++
           ["    <div class=\"change-content\">"] ++
           tafCondLinesHtml ic.2 "      " ++
           ["    </div>"]) ++
       ["  </div>"]) ++
  (match p.temperature_forecast with
   | some tf =>
     ["  <h3 class=\"forecast-section\">&#127777;&#65039; <span class=\"section-title\">TEMPERATURE FORECAST</span></h3>",
      "  <div class=\"forecast-content\">"] ++
       ((tf.max_temperature.getD []).map fun t =>
         "    <p><span class=\"label\">Maximum:</span> &#127777;&#65039; " ++
           toString t.value ++ "&#176;C at " ++ t.time ++ "Z</p>") ++
       ((tf.min_temperature.getD []).map fun t =>
         "    <p><span class=\"label\">Minimum:</span> &#127777;&#65039; " ++
           toString t.value ++ "&#176;C at " ++ t.time ++ "Z</p>") ++
       ["  </div>"]
   | none => []) ++
  (let qs := p.qnh_forecast.getD []
   if qs.isEmpty then []
   else
     ["  <h3 class=\"forecast-section\">&#128317; <span class=\"section-title\">PRESSURE FORECAST</span></h3>",
      "  <div class=\"forecast-content\">"] ++
       (qs.enum.map fun iq =>
         "    <p>" ++ toString (iq.1 + 1) ++ ". <span class=\"label\">QNH:</span> &#128317; " ++
           iq.2.value.render ++ " " ++ iq.2.unit ++ "</p>") ++
       ["  </div>"]) ++
  (match p.remarks with
   | some r => if r ≠ "" then ["  <p><span class=\"label\">Remarks:</span> " ++ r ++ "</p>"] else []
   | none => []) ++
  (match p.parse_error with
   | some e => ["  <p><span class=\"label\">Parse Error:</span> " ++ e ++ "</p>"]
   | none => []) ++
  ["</div>"]

/-- `_format_taf_html`: its lines are always joined with a newline; the
`eol` parameter of `format_taf` plays no part here. -/
def formatTafHtml (p : TafParsed) : String :=
  String.intercalate "\n" (tafHtmlLines p)

/-- `_format_taf_text`. -/
def formatTafText (p : TafParsed) (eol : String) : String :=
  String.intercalate eol (tafTextLines p)

/-- `format_taf(parsed_taf, eol, is_html)`: falsy or non-dictionary input
yields the sentinel, HTML mode dispatches to `_format_taf_html`
(which ignores `eol`), text mode to `_format_taf_text`. -/
def formatTafPy (p : Option TafParsed) (eol : String) (isHtml : Bool) : String :=
  match p with
  | none => "Invalid TAF data"
  | some d =>
    if d = {} then "Invalid TAF data"
    else if isHtml then formatTafHtml d
    else formatTafText d eol

/-! ## Theorems -/

/-- The integer-level rounding used by the executable conversions agrees
with the Python `round` of the exact fraction. -/
theorem pyRoundNat_eq_pyRound (n b : ℕ) (hb : 0 < b) :
    pyRoundNat n b = pyRound ((n : ℚ) / (b : ℚ)) := by
  have hbq : (0 : ℚ) < (b : ℚ) := by positivity
  have hfloor : ⌊(n : ℚ) / (b : ℚ)⌋ = ((n / b : ℕ) : ℤ) := by
    have h := Rat.floor_intCast_div_natCast (n : ℤ) b
    push_cast at h
    rw [h, Int.natCast_div]
  have hnd : (n : ℚ) = (b : ℚ) * ((n / b : ℕ) : ℚ) + ((n % b : ℕ) : ℚ) := by
    exact_mod_cast congrArg (Nat.cast : ℕ → ℚ) (Nat.div_add_mod n b).symm
  have hr : (n : ℚ) / (b : ℚ) - ((n / b : ℕ) : ℚ) = ((n % b : ℕ) : ℚ) / (b : ℚ) := by
    field_simp
    linarith [hnd]
  have hlt : ((n % b : ℕ) : ℚ) / (b : ℚ) < 1/2 ↔ 2 * (n % b) < b := by
    rw [div_lt_div_iff hbq (by norm_num : (0:ℚ) < 2)]
    constructor
    · intro h
      have h2 : ((2 * (n % b) : ℕ) : ℚ) < ((b : ℕ) : ℚ) := by push_cast; linarith
      exact_mod_cast h2
    · intro h
      have h2 : ((2 * (n % b) : ℕ) : ℚ) < ((b : ℕ) : ℚ) := by exact_mod_cast h
      push_cast at h2
      linarith
  have hgt : (1:ℚ)/2 < ((n % b : ℕ) : ℚ) / (b : ℚ) ↔ b < 2 * (n % b) := by
    rw [div_lt_div_iff (by norm_num : (0:ℚ) < 2) hbq]
    constructor
    · intro h
      have h2 : ((b : ℕ) : ℚ) < ((2 * (n % b) : ℕ) : ℚ) := by push_cast; linarith
      exact_mod_cast h2
    · intro h
      have h2 : ((b : ℕ) : ℚ) < ((2 * (n % b) : ℕ) : ℚ) := by exact_mod_cast h
      push_cast at h2
      linarith
  have hcast : ((((n / b : ℕ) : ℤ)) : ℚ) = ((n / b : ℕ) : ℚ) := by norm_cast
  unfold pyRound pyRoundNat
  simp only [hfloor, hcast, hr]
  rcases lt_trichotomy (2 * (n % b)) b with h | h | h
  · rw [if_pos h, if_pos (hlt.mpr h)]
  · have h1 : ¬ (((n % b : ℕ) : ℚ) / (b : ℚ) < 1/2) := by rw [hlt]; omega
    have h2 : ¬ ((1:ℚ)/2 < ((n % b : ℕ) : ℚ) / (b : ℚ)) := by rw [hgt]; omega
    rw [if_neg (by omega : ¬ (2 * (n % b) < b)), if_neg (by omega : ¬ (b < 2 * (n % b))),
        if_neg h1, if_neg h2]
    by_cases hp : (n / b) % 2 = 0
    · rw [if_pos hp, if_pos (by omega : ((n / b : ℕ) : ℤ) % 2 = 0)]
    · rw [if_neg hp, if_neg (by omega : ¬ ((n / b : ℕ) : ℤ) % 2 = 0)]
  · rw [if_neg (by omega : ¬ (2 * (n % b) < b)), if_pos h,
        if_neg (by rw [hlt]; omega), if_pos (hgt.mpr h)]

/-- C1: the parse and format entry points return a value for every input
(they are total functions of the embedding, the `try`-block bodies being
total, so no exception can reach a caller); a `none` (non-string or
non-dictionary) argument and an empty/falsy one yield the empty report
dictionary from the parsers and the `Invalid METAR data` /
`Invalid TAF data` sentinel strings from the formatters. -/
theorem c1_total_entry_points_and_sentinels :
    ∀ (e : String) (b : Bool),
      formatMetarPy none e = "Invalid METAR data" ∧
      formatTafPy none e b = "Invalid TAF data" ∧
      formatMetarPy (some {}) e = "Invalid METAR data" ∧
      formatTafPy (some {}) e b = "Invalid TAF data" ∧
      parseMetarPy none = {} ∧
      parseMetarPy (some "") = {} ∧
      parseTafPy none = {} ∧
      parseTafPy (some "") = {} := by
  intro e b
  refine ⟨rfl, rfl, ?_, ?_, rfl, rfl, rfl, rfl⟩ <;>
    simp [formatMetarPy, formatTafPy]

/-- C2 (counterexample): the code decodes `SLP134` to the integer 1134 and
`SLP876` to 876, not to the 1013.4 and 987.6 claimed. -/
theorem c2_slp_counterexample :
    (parseMetarPy
        (some "EGLL 021420Z 35004KT 9999 12/06 Q1013 RMK AO2 SLP134")).sea_level_pressure
      = some 1134 ∧
    (1134 : ℚ) ≠ 1013.4 ∧
    (parseMetarPy
        (some "EGLL 021420Z 35004KT 9999 12/06 Q1013 RMK AO2 SLP876")).sea_level_pressure
      = some 876 ∧
    (876 : ℚ) ≠ 987.6 := by
  refine ⟨rfl, by norm_num, rfl, by norm_num⟩

/-- C2 (amended): for every METAR whose remarks match `SLP` followed by
three digits of value `v`, the decoded sea-level pressure is the integer
`1000 + v` when `v < 700` and `v` itself (`1000 + (v - 1000)`) otherwise. -/
theorem c2_slp_rule (s : String) (rem : List Char) (i v k : Nat)
    (hrem : metarRemarks s.data = some rem)
    (hslp : research matchSlpAt rem = some (i, v, k)) :
    (parseMetarStr s).sea_level_pressure =
      some (1000 + (if v < 700 then (v : ℤ) else (v : ℤ) - 1000)) := by
  simp [parseMetarStr, hrem, metarSlp, hslp]

/-- C2 witness: the rule applied to the `SLP134` METAR yields 1134. -/
theorem c2_slp_rule_witness :
    (parseMetarStr "EGLL 021420Z 35004KT 9999 12/06 Q1013 RMK AO2 SLP134").sea_level_pressure
      = some 1134 := by
  have h := c2_slp_rule "EGLL 021420Z 35004KT 9999 12/06 Q1013 RMK AO2 SLP134"
    ("AO2 SLP134").data 4 134 6 (by rfl) (by rfl)
  simpa using h

/-- C3: whenever the parsed METAR has its `cavok` flag set, the visibility
field holds the `CAVOK` sentinel and the weather and cloud fields are
absent. -/
theorem c3_cavok_exclusion (x : Option String)
    (h : (parseMetarPy x).cavok = some true) :
    (parseMetarPy x).visibility = some "CAVOK" ∧
    (parseMetarPy x).weather = none ∧
    (parseMetarPy x).clouds = none := by
  match x with
  | none => simp [parseMetarPy] at h
  | some s =>
    by_cases hs : s = ""
    · simp [parseMetarPy, hs] at h
    · simp only [parseMetarPy, if_neg hs] at h ⊢
      by_cases hc : metarHasCavok s.data
      · simp [parseMetarStr, metarVisibility, metarWeather, metarClouds, hc]
      · simp [parseMetarStr, hc] at h

/-- C3 witness: a CAVOK METAR. -/
theorem c3_cavok_exclusion_witness :
    (parseMetarPy (some "EGLL 021420Z 35004KT CAVOK 12/06 Q1035")).cavok = some true ∧
    (parseMetarPy (some "EGLL 021420Z 35004KT CAVOK 12/06 Q1035")).visibility = some "CAVOK" ∧
    (parseMetarPy (some "EGLL 021420Z 35004KT CAVOK 12/06 Q1035")).weather = none ∧
    (parseMetarPy (some "EGLL 021420Z 35004KT CAVOK 12/06 Q1035")).clouds = none := by
  have h := c3_cavok_exclusion (some "EGLL 021420Z 35004KT CAVOK 12/06 Q1035") (by rfl)
  exact ⟨by rfl, h⟩

theorem mem_insByStart {x y : MSpan} : ∀ {l : List MSpan},
    x ∈ insByStart y l ↔ x = y ∨ x ∈ l := by
  intro l
  induction l with
  | nil => simp [insByStart]
  | cons a t ih =>
    by_cases hc : a.start ≤ y.start <;> simp [insByStart, hc, ih] <;> tauto

theorem mem_sortByStart {x : MSpan} : ∀ {l : List MSpan},
    x ∈ sortByStart l ↔ x ∈ l := by
  intro l
  induction l with
  | nil => simp [sortByStart]
  | cons a t ih => simp [sortByStart, mem_insByStart, ih]

theorem pairwise_insByStart {y : MSpan} : ∀ {l : List MSpan},
    List.Pairwise (fun a b => a.start ≤ b.start) l →
    List.Pairwise (fun a b => a.start ≤ b.start) (insByStart y l) := by
  intro l
  induction l with
  | nil => intro _; simp [insByStart]
  | cons a t ih =>
    intro hp
    rw [List.pairwise_cons] at hp
    by_cases hc : a.start ≤ y.start
    · simp only [insByStart, if_pos hc]
      rw [List.pairwise_cons]
      refine ⟨?_, ih hp.2⟩
      intro b hb
      rcases mem_insByStart.mp hb with rfl | hb'
      · exact hc
      · exact hp.1 b hb'
    · simp only [insByStart, if_neg hc]
      rw [List.pairwise_cons]
      refine ⟨?_, List.pairwise_cons.mpr hp⟩
      intro b hb
      rcases List.mem_cons.mp hb with rfl | hb'
      · omega
      · have := hp.1 b hb'
        omega

theorem pairwise_sortByStart : ∀ (l : List MSpan),
    List.Pairwise (fun a b => a.start ≤ b.start) (sortByStart l) := by
  intro l
  induction l with
  | nil => simp [sortByStart]
  | cons a t ih => exact pairwise_insByStart ih

theorem filterOv_subset {x : MSpan} : ∀ {le : Int} {l : List MSpan},
    x ∈ filterOv le l → x ∈ l := by
  intro le l
  induction l generalizing le with
  | nil => simp [filterOv]
  | cons m ms ih =>
    intro h
    by_cases hc : le ≤ (m.start : Int)
    · simp only [filterOv, if_pos hc] at h
      rcases List.mem_cons.mp h with rfl | h'
      · exact List.mem_cons_self ..
      · exact List.mem_cons_of_mem _ (ih h')
    · simp only [filterOv, if_neg hc] at h
      exact List.mem_cons_of_mem _ (ih h)

theorem filterOv_ge {x : MSpan} : ∀ {le : Int} {l : List MSpan},
    (∀ y ∈ l, y.start ≤ y.stop) → x ∈ filterOv le l → le ≤ (x.start : Int) := by
  intro le l
  induction l generalizing le with
  | nil => simp [filterOv]
  | cons m ms ih =>
    intro hwf h
    by_cases hc : le ≤ (m.start : Int)
    · simp only [filterOv, if_pos hc] at h
      rcases List.mem_cons.mp h with rfl | h'
      · exact hc
      · have h1 := ih (fun y hy => hwf y (List.mem_cons_of_mem _ hy)) h'
        have h2 := hwf m (List.mem_cons_self ..)
        have : (m.start : Int) ≤ (m.stop : Int) := by exact_mod_cast h2
        omega
    · simp only [filterOv, if_neg hc] at h
      exact ih (fun y hy => hwf y (List.mem_cons_of_mem _ hy)) h

theorem filterOv_pairwise : ∀ {le : Int} {l : List MSpan},
    (∀ y ∈ l, y.start ≤ y.stop) →
    List.Pairwise (fun a b => a.stop ≤ b.start) (filterOv le l) := by
  intro le l
  induction l generalizing le with
  | nil => intro _; simp [filterOv]
  | cons m ms ih =>
    intro hwf
    have hwf' : ∀ y ∈ ms, y.start ≤ y.stop :=
      fun y hy => hwf y (List.mem_cons_of_mem _ hy)
    by_cases hc : le ≤ (m.start : Int)
    · simp only [filterOv, if_pos hc]
      rw [List.pairwise_cons]
      refine ⟨?_, ih hwf'⟩
      intro b hb
      have := filterOv_ge hwf' hb
      exact_mod_cast this
    · simp only [filterOv, if_neg hc]
      exact ih hwf'

theorem filterOv_keeps {m : MSpan} : ∀ (l1 : List MSpan) (l2 : List MSpan) (le : Int),
    le ≤ (m.start : Int) → (∀ x ∈ l1, (x.stop : Int) ≤ (m.start : Int)) →
    m ∈ filterOv le (l1 ++ m :: l2) := by
  intro l1
  induction l1 with
  | nil =>
    intro l2 le hle _
    simp only [List.nil_append, filterOv, if_pos hle]
    exact List.mem_cons_self ..
  | cons x l1' ih =>
    intro l2 le hle hstop
    by_cases hc : le ≤ (x.start : Int)
    · simp only [List.cons_append, filterOv, if_pos hc]
      refine List.mem_cons_of_mem _ ?_
      exact ih l2 (x.stop : Int) (hstop x (List.mem_cons_self ..))
        (fun y hy => hstop y (List.mem_cons_of_mem _ hy))
    · simp only [List.cons_append, filterOv, if_neg hc]
      exact ih l2 le hle (fun y hy => hstop y (List.mem_cons_of_mem _ hy))

theorem filterOv_dropped {x : MSpan} : ∀ {le : Int} {l : List MSpan},
    List.Pairwise (fun a b => a.start ≤ b.start) l →
    x ∈ l → x ∉ filterOv le l →
    (∃ k ∈ filterOv le l, k.start ≤ x.start ∧ (x.start : Int) < (k.stop : Int)) ∨
      (x.start : Int) < le := by
  intro le l
  induction l generalizing le with
  | nil => simp
  | cons m ms ih =>
    intro hp hx hnx
    rw [List.pairwise_cons] at hp
    by_cases hc : le ≤ (m.start : Int)
    · simp only [filterOv, if_pos hc] at hnx ⊢
      rcases List.mem_cons.mp hx with rfl | hx'
      · exact absurd (List.mem_cons_self ..) hnx
      · have hnx' : x ∉ filterOv (m.stop : Int) ms := fun hq =>
          hnx (List.mem_cons_of_mem _ hq)
        rcases ih hp.2 hx' hnx' with ⟨k, hk, hk1, hk2⟩ | hlt
        · exact Or.inl ⟨k, List.mem_cons_of_mem _ hk, hk1, hk2⟩
        · refine Or.inl ⟨m, List.mem_cons_self .., hp.1 x hx', ?_⟩
          exact_mod_cast hlt
    · simp only [filterOv, if_neg hc] at hnx ⊢
      rcases List.mem_cons.mp hx with rfl | hx'
      · omega
      · exact ih hp.2 hx' hnx

/-- First-occurrence decomposition of a list at a member. -/
theorem mem_split_first {x : MSpan} : ∀ {l : List MSpan},
    x ∈ l → ∃ l1 l2, l = l1 ++ x :: l2 ∧ x ∉ l1 := by
  intro l
  induction l with
  | nil => simp
  | cons a t ih =>
    intro hx
    by_cases ha : a = x
    · subst ha
      exact ⟨[], t, rfl, by simp⟩
    · rcases List.mem_cons.mp hx with rfl | hx'
      · exact absurd rfl ha
      · obtain ⟨l1, l2, heq, hnx⟩ := ih hx'
        refine ⟨a :: l1, l2, by rw [heq, List.cons_append], ?_⟩
        intro hq
        rcases List.mem_cons.mp hq with rfl | hq'
        · exact ha rfl
        · exact hnx hq'

theorem tafAllMatches_wf (ct : List Char) :
    ∀ y ∈ tafAllMatches ct, y.start ≤ y.stop := by
  intro y hy
  unfold tafAllMatches probTempoMatches otherSegMatches at hy
  rcases List.mem_append.mp hy with h | h <;>
  · obtain ⟨t, _, rfl⟩ := List.mem_map.mp h
    simp

/-- Character-level consequence of a prefix match. -/
theorem startsWithL_get : ∀ (p l : List Char), startsWithL p l = true →
    ∀ i, i < p.length → l.get? i = p.get? i := by
  intro p
  induction p with
  | nil => intro l _ i hi; simp at hi
  | cons a p' ih =>
    intro l h i hi
    cases l with
    | nil => simp [startsWithL] at h
    | cons b l' =>
      simp only [startsWithL, Bool.and_eq_true, decide_eq_true_eq] at h
      cases i with
      | zero => simp [h.1]
      | succ i' =>
        simp only [List.get?_cons_succ]
        exact ih l' h.2 i' (by simpa using hi)

/-- C4 (counterexample): the TAF
`EGLL 121100Z 1212/1318 35010KT 9999 TEMPO PROB30 TEMPO 1212/1313 SN` has a
change region that contains the space-delimited combination
`PROB30 TEMPO 1212/1313 SN` (the combined pattern matches it), yet
segmentation produces two groups of type `TEMPO` and no group of the
combined type: the earlier `TEMPO` candidate lazily extends over the
`PROB30` and the combined candidate is discarded by the overlap filter. -/
theorem c4_prob_tempo_counterexample :
    tafChangesText (tafWithoutRemarks
        ("EGLL 121100Z 1212/1318 35010KT 9999 TEMPO PROB30 TEMPO 1212/1313 SN").data) =
      some ("TEMPO PROB30 TEMPO 1212/1313 SN").data ∧
    probTempoMatches ("TEMPO PROB30 TEMPO 1212/1313 SN").data =
      [⟨6, 31, ("PROB30 TEMPO 1212/1313 SN").data⟩] ∧
    (changesView (parseTafPy
        (some "EGLL 121100Z 1212/1318 35010KT 9999 TEMPO PROB30 TEMPO 1212/1313 SN"))).map
      ForecastGroup.type = ["TEMPO", "TEMPO"] := by
  refine ⟨by rfl, by rfl, by rfl⟩

/-- C4 (amended): whenever a combined `PROB30 TEMPO`/`PROB40 TEMPO`
candidate span is matched, starts with the space-delimited combination, and
no other candidate starts earlier and overlaps it (nor shares its start),
segmentation keeps exactly that candidate over its span, types it with the
combined type (never as a separate `PROB30` plus `TEMPO` pair), and its
parsed group is among the change groups; moreover — without any hypothesis
— the kept candidate spans are pairwise non-overlapping and every discarded
candidate begins before the end of an earlier-starting kept one. -/
theorem c4_prob_tempo_segmentation (ct : List Char) (m : MSpan)
    (h1 : m ∈ probTempoMatches ct)
    (h2 : startsWithL ("PROB30 TEMPO").data (stripL m.text) = true ∨
          startsWithL ("PROB40 TEMPO").data (stripL m.text) = true)
    (h3 : ∀ m' ∈ tafAllMatches ct, m' ≠ m →
          m'.start ≠ m.start ∧ (m'.start < m.start → m'.stop ≤ m.start)) :
    m ∈ tafFilteredMatches ct ∧
    (segGroupType (stripL m.text) = some "PROB30 TEMPO" ∨
     segGroupType (stripL m.text) = some "PROB40 TEMPO") ∧
    (∃ ty, segGroupType (stripL m.text) = some ty ∧
       parseForecastGroup (String.mk (stripL m.text)) ty ∈ tafChangeGroupsOf ct) ∧
    (∀ x ∈ tafFilteredMatches ct, x ≠ m → (x.stop ≤ m.start ∨ m.stop ≤ x.start)) ∧
    List.Pairwise (fun a b => a.stop ≤ b.start) (tafFilteredMatches ct) ∧
    (∀ x ∈ tafAllMatches ct, x ∉ tafFilteredMatches ct →
       ∃ k ∈ tafFilteredMatches ct, k.start ≤ x.start ∧ (x.start : ℤ) < (k.stop : ℤ)) := by
  have hall : m ∈ tafAllMatches ct := by
    unfold tafAllMatches
    exact List.mem_append.mpr (Or.inl h1)
  have hwf := tafAllMatches_wf ct
  have hwfs : ∀ y ∈ sortByStart (tafAllMatches ct), y.start ≤ y.stop :=
    fun y hy => hwf y (mem_sortByStart.mp hy)
  have hsorted := pairwise_sortByStart (tafAllMatches ct)
  have hmem : m ∈ tafFilteredMatches ct := by
    obtain ⟨l1, l2, heq, hnx⟩ := mem_split_first (mem_sortByStart.mpr hall)
    unfold tafFilteredMatches
    rw [heq]
    refine filterOv_keeps l1 l2 (-1) (by omega) ?_
    intro x hx
    have hxall : x ∈ tafAllMatches ct := by
      have : x ∈ sortByStart (tafAllMatches ct) := by
        rw [heq]
        exact List.mem_append.mpr (Or.inl hx)
      exact mem_sortByStart.mp this
    have hxne : x ≠ m := fun hq => hnx (hq ▸ hx)
    have hxle : x.start ≤ m.start := by
      rw [heq] at hsorted
      have := (List.pairwise_append.mp hsorted).2.2 x hx m (List.mem_cons_self ..)
      exact this
    have h3x := h3 x hxall hxne
    have : x.start < m.start := lt_of_le_of_ne hxle h3x.1
    exact_mod_cast h3x.2 this
  have hty : segGroupType (stripL m.text) = some "PROB30 TEMPO" ∨
      segGroupType (stripL m.text) = some "PROB40 TEMPO" := by
    rcases h2 with h2 | h2
    · left
      unfold segGroupType
      rw [if_pos h2]
    · right
      have hnot30 : ¬ startsWithL ("PROB30 TEMPO").data (stripL m.text) = true := by
        intro hq
        have hq4 := startsWithL_get _ _ hq 4 (by decide)
        have hp4 := startsWithL_get _ _ h2 4 (by decide)
        rw [hq4] at hp4
        exact absurd hp4 (by decide)
      unfold segGroupType
      rw [if_neg hnot30, if_pos h2]
  have hpair : List.Pairwise (fun a b => a.stop ≤ b.start) (tafFilteredMatches ct) :=
    filterOv_pairwise hwfs
  refine ⟨hmem, hty, ?_, ?_, hpair, ?_⟩
  · rcases hty with hty | hty
    · exact ⟨"PROB30 TEMPO", hty, List.mem_filterMap.mpr ⟨m, hmem, by simp [hty]⟩⟩
    · exact ⟨"PROB40 TEMPO", hty, List.mem_filterMap.mpr ⟨m, hmem, by simp [hty]⟩⟩
  · intro x hx hne
    have main : ∀ l : List MSpan, List.Pairwise (fun a b => a.stop ≤ b.start) l →
        m ∈ l → x ∈ l → x ≠ m → (x.stop ≤ m.start ∨ m.stop ≤ x.start) := by
      intro l
      induction l with
      | nil => simp
      | cons a t ih =>
        intro hp hm hx hxm
        rw [List.pairwise_cons] at hp
        rcases List.mem_cons.mp hm with rfl | hm'
        · rcases List.mem_cons.mp hx with rfl | hx'
          · exact absurd rfl hxm
          · exact Or.inr (hp.1 x hx')
        · rcases List.mem_cons.mp hx with rfl | hx'
          · exact Or.inl (hp.1 m hm')
          · exact ih hp.2 hm' hx' hxm
    exact main _ hpair hmem hx hne
  · intro x hxall hxn
    have hxs : x ∈ sortByStart (tafAllMatches ct) := mem_sortByStart.mpr hxall
    rcases @filterOv_dropped x (-1) _ (pairwise_sortByStart _) hxs hxn with h | h
    · exact h
    · exact absurd h (by omega)

/-- C4 witness: in the change region
`TEMPO 1300/1302 RA PROB30 TEMPO 1212/1313 SN BECMG 1314/1316 25015KT` the
combined candidate at 19..44 does not overlap the earlier `TEMPO` group, so
it is kept as the single combined group. -/
theorem c4_prob_tempo_segmentation_witness :
    (⟨19, 44, ("PROB30 TEMPO 1212/1313 SN").data⟩ : MSpan) ∈
      tafFilteredMatches
        ("TEMPO 1300/1302 RA PROB30 TEMPO 1212/1313 SN BECMG 1314/1316 25015KT").data ∧
    segGroupType (stripL ("PROB30 TEMPO 1212/1313 SN").data) = some "PROB30 TEMPO" := by
  have h := c4_prob_tempo_segmentation
    ("TEMPO 1300/1302 RA PROB30 TEMPO 1212/1313 SN BECMG 1314/1316 25015KT").data
    ⟨19, 44, ("PROB30 TEMPO 1212/1313 SN").data⟩
    (by decide) (by decide)
    (by decide)
  refine ⟨h.1, ?_⟩
  rcases h.2.1 with hx | hx
  · exact hx
  · exact absurd hx (by decide)

/-- C5: when the remarks-stripped body of a TAF contains no change
indicator, `parse_taf` stores no change group (the formatter view of the
change list is empty) and the base forecast is the parse of the whole
remarks-stripped body. -/
theorem c5_no_change_indicator (s : String)
    (h : tafFirstChange (tafWithoutRemarks s.data) = none) :
    changesView (parseTafStr s) = [] ∧
    (parseTafStr s).forecast_changes = none ∧
    (parseTafStr s).base_forecast =
      some (parseForecastGroup (String.mk (stripL (tafWithoutRemarks s.data))) "BASE") := by
  refine ⟨?_, ?_, ?_⟩ <;>
    simp [parseTafStr, changesView, tafChangesText, tafBaseText, h]

/-- C5 witness: a TAF with no change groups. -/
theorem c5_no_change_indicator_witness :
    tafFirstChange (tafWithoutRemarks ("EGLL 121100Z 1212/1318 35010KT 9999 SCT025").data) = none ∧
    changesView (parseTafStr "EGLL 121100Z 1212/1318 35010KT 9999 SCT025") = [] ∧
    (parseTafStr "EGLL 121100Z 1212/1318 35010KT 9999 SCT025").forecast_changes = none := by
  have h := c5_no_change_indicator "EGLL 121100Z 1212/1318 35010KT 9999 SCT025" (by rfl)
  exact ⟨by rfl, h.1, h.2.1⟩

/-- C6: every wind token accepted by the shared wind pattern is stored by
`parse_metar` and by `_parse_forecast_group` with its speed (and gust)
converted by `knotsOfUnit`/`gustKnotsOfUnit`, and those conversions are
`round(v * 1.94384)` for `MPS`, `round(v * 0.539957)` for `KMH`, and the
identity for `KT` (a zero gust collapses to `None` in the converted
branches, mirroring the truthiness test of the source). -/
theorem c6_wind_conversion (s g ty : String) :
    (∀ i tok k, research matchWindAt s.data = some (i, tok, k) →
       (parseMetarStr s).wind =
         some { direction := some tok.direction,
                speed := some (knotsOfUnit tok.unit tok.speedRaw),
                gust := gustKnotsOfUnit tok.unit tok.gustRaw,
                variation := metarVariation s.data }) ∧
    (∀ i tok k, research matchWindAt g.data = some (i, tok, k) →
       (parseForecastGroup g ty).wind =
         some { direction := tok.direction,
                speed := knotsOfUnit tok.unit tok.speedRaw,
                gust := gustKnotsOfUnit tok.unit tok.gustRaw }) ∧
    (∀ v : Nat, knotsOfUnit "MPS" v = pyRound ((v : ℚ) * 1.94384)) ∧
    (∀ v : Nat, knotsOfUnit "KMH" v = pyRound ((v : ℚ) * 0.539957)) ∧
    (∀ v : Nat, knotsOfUnit "KT" v = (v : Int)) ∧
    (∀ v : Nat, v ≠ 0 →
       gustKnotsOfUnit "MPS" (some v) = some (pyRound ((v : ℚ) * 1.94384)) ∧
       gustKnotsOfUnit "KMH" (some v) = some (pyRound ((v : ℚ) * 0.539957))) ∧
    (∀ v : Nat, gustKnotsOfUnit "KT" (some v) = some (v : Int)) := by
  refine ⟨?_, ?_, ?_, ?_, ?_, ?_, ?_⟩
  · intro i tok k h
    simp [parseMetarStr, metarWind, metarWindTok, h]
  · intro i tok k h
    simp [parseForecastGroup, fgWind, h]
  · intro v
    have h := pyRoundNat_eq_pyRound (v * 194384) 100000 (by norm_num)
    have hu : knotsOfUnit "MPS" v = pyRoundNat (v * 194384) 100000 := by
      simp [knotsOfUnit]
    rw [hu, h]
    congr 1
    rw [show (1.94384 : ℚ) = 194384 / 100000 by norm_num]
    push_cast
    ring
  · intro v
    have h := pyRoundNat_eq_pyRound (v * 539957) 1000000 (by norm_num)
    have hu : knotsOfUnit "KMH" v = pyRoundNat (v * 539957) 1000000 := by
      simp [knotsOfUnit]
    rw [hu, h]
    congr 1
    rw [show (0.539957 : ℚ) = 539957 / 1000000 by norm_num]
    push_cast
    ring
  · intro v; rfl
  · intro v hv
    constructor
    · have h := pyRoundNat_eq_pyRound (v * 194384) 100000 (by norm_num)
      have hu : gustKnotsOfUnit "MPS" (some v) = some (pyRoundNat (v * 194384) 100000) := by
        simp [gustKnotsOfUnit, hv]
      rw [hu, h]
      congr 2
      rw [show (1.94384 : ℚ) = 194384 / 100000 by norm_num]
      push_cast
      ring
    · have h := pyRoundNat_eq_pyRound (v * 539957) 1000000 (by norm_num)
      have hu : gustKnotsOfUnit "KMH" (some v) = some (pyRoundNat (v * 539957) 1000000) := by
        simp [gustKnotsOfUnit, hv]
      rw [hu, h]
      congr 2
      rw [show (0.539957 : ℚ) = 539957 / 1000000 by norm_num]
      push_cast
      ring
  · intro v; rfl

/-- C6 witness: a 6 MPS wind gusting 25 MPS converts to 12 KT gusting
49 KT. -/
theorem c6_wind_conversion_witness :
    (parseMetarStr "EGLL 121100Z 12006G25MPS 9999").wind =
      some { direction := some "120", speed := some 12, gust := some 49,
             variation := none } := by
  have h := (c6_wind_conversion "EGLL 121100Z 12006G25MPS 9999" "" "BASE").1
    13 ⟨"120", 6, some 25, "MPS"⟩ 11 (by rfl)
  exact h.trans (by rfl)

/-- Inversion for ordered alternation. -/
theorem oor_eq_some {α : Type} {a : Option α} {b : Unit → Option α} {x : α}
    (h : oor a b = some x) : a = some x ∨ (a = none ∧ b () = some x) := by
  cases a with
  | some y => left; simpa [oor] using h
  | none => right; exact ⟨rfl, by simpa [oor] using h⟩

/-- Inversion for `searchAux`: a successful search happened at some offset
`j`, with the previous character and remaining suffix taken there. -/
theorem searchAux_some {α : Type} (m : MatcherT α) :
    ∀ (l : List Char) (prev : Option Char) (i0 i : Nat) (a : α) (k : Nat),
      searchAux m prev i0 l = some (i, a, k) →
      ∃ j, i = i0 + j ∧
        m (if j = 0 then prev else (l.drop (j - 1)).head?) (l.drop j) = some (a, k) := by
  intro l
  induction l with
  | nil =>
    intro prev i0 i a k h
    rcases hm : m prev ([] : List Char) with _ | ⟨a', k'⟩ <;>
      simp only [searchAux, hm, Option.some.injEq, Prod.mk.injEq] at h
    · exact absurd h (by simp)
    · obtain ⟨h1, h2, h3⟩ := h
      subst h1; subst h2; subst h3
      exact ⟨0, by omega, by simpa using hm⟩
  | cons c r ih =>
    intro prev i0 i a k h
    rcases hm : m prev (c :: r) with _ | ⟨a', k'⟩ <;>
      simp only [searchAux, hm, Option.some.injEq, Prod.mk.injEq] at h
    · obtain ⟨j, hj, hmm⟩ := ih (some c) (i0 + 1) i a k h
      refine ⟨j + 1, by omega, ?_⟩
      cases j with
      | zero => simpa using hmm
      | succ j' => simpa [List.drop_succ_cons] using hmm
    · obtain ⟨h1, h2, h3⟩ := h
      subst h1; subst h2; subst h3
      exact ⟨0, by omega, by simpa using hm⟩

/-- Inversion for the TAF visibility matcher when it returns the four-digit
meters alternative: the look-behind, look-around and boundary facts of that
branch must all hold. -/
theorem matchVisTafAt_meters {prev : Option Char} {l ds : List Char} {k : Nat}
    (h : matchVisTafAt prev l = some (VisTok.meters ds, k)) :
    bdryBefore prev = true ∧ prev ≠ some '/' ∧
    ds = l.take 4 ∧ ds.length = 4 ∧ ds.all (·.isDigit) = true ∧
    (l.drop 4).head? ≠ some '/' ∧ bdryAfter (l.drop 4).head? = true ∧ k = 4 := by
  unfold matchVisTafAt at h
  by_cases hb : bdryBefore prev
  case neg => simp [hb] at h
  rw [hb] at h
  simp only [Bool.not_true, Bool.false_eq_true, if_false] at h
  rcases oor_eq_some h with h1 | ⟨_, h1⟩
  · split at h1 <;> simp_all
  rcases oor_eq_some h1 with h2 | ⟨_, h2⟩
  · split at h2 <;> simp_all
  rcases oor_eq_some h2 with h3 | ⟨_, h3⟩
  · by_cases hl : prev ≠ some '/'
    case neg => rw [if_neg hl] at h3; simp at h3
    rw [if_pos hl] at h3
    rcases ht : takeDigitChars 4 l with _ | ⟨d, r⟩ <;> simp only [ht] at h3
    · simp at h3
    · unfold takeDigitChars at ht
      by_cases hlen : ((l.take 4).length = 4 && (l.take 4).all (·.isDigit)) = true
      case neg => rw [if_neg hlen] at ht; simp at ht
      rw [if_pos hlen] at ht
      simp only [Option.some.injEq, Prod.mk.injEq] at ht
      obtain ⟨hd, hrr⟩ := ht
      by_cases hsl : (decide (r.head? ≠ some '/') && bdryAfter r.head?) = true
      case neg => rw [if_neg hsl] at h3; simp at h3
      rw [if_pos hsl] at h3
      simp only [Option.some.injEq, Prod.mk.injEq, VisTok.meters.injEq] at h3
      obtain ⟨hds, hk⟩ := h3
      simp only [Bool.and_eq_true, decide_eq_true_eq] at hlen
      simp only [Bool.and_eq_true, decide_eq_true_eq] at hsl
      subst hds
      subst hd
      refine ⟨hb, hl, rfl, hlen.1, hlen.2, ?_, ?_, by omega⟩
      · rw [← hrr] at hsl; exact hsl.1
      · rw [← hrr] at hsl; exact hsl.2
  · rcases hsm : matchVisSM l with _ | p <;> rw [hsm] at h3 <;> simp at h3

/-- Digit strings contain no `SM` substring. -/
theorem containsSub_SM_of_digits :
    ∀ (ds : List Char), ds.all (·.isDigit) = true →
      containsSub ['S', 'M'] ds = false := by
  intro ds
  induction ds with
  | nil => intro _; rfl
  | cons c cs ih =>
    intro h
    simp only [List.all_cons, Bool.and_eq_true] at h
    unfold containsSub
    have hcS : ¬ ('S' = c) := by
      intro hq
      rw [← hq] at h
      simp at h
    simp [startsWithL, hcS, ih h.2]

/-- C7: the shared TAF condition parser never takes a four-digit number
immediately preceded or followed by a slash (a `DDHH/DDHH` validity token)
as the meters visibility: a successful meters match has no `/` on either
side, and the stored visibility is those four digits with the ` meters`
suffix. -/
theorem c7_visibility_not_validity (g ty : String) (i : Nat) (ds : List Char) (k : Nat)
    (h : research matchVisTafAt g.data = some (i, VisTok.meters ds, k)) :
    (i = 0 ∨ (g.data.drop (i - 1)).head? ≠ some '/') ∧
    (g.data.drop (i + 4)).head? ≠ some '/' ∧
    ds = (g.data.drop i).take 4 ∧ ds.length = 4 ∧ ds.all (·.isDigit) = true ∧
    (parseForecastGroup g ty).visibility = some (String.mk ds ++ " meters") := by
  obtain ⟨j, hj, hm⟩ := searchAux_some matchVisTafAt g.data none 0 i (VisTok.meters ds) k h
  have hij : i = j := by omega
  subst hij
  obtain ⟨hb, hsl, hds, hlen, hdig, hr1, hr2, hk⟩ := matchVisTafAt_meters hm
  have hdrop : (g.data.drop i).drop 4 = g.data.drop (i + 4) := by
    rw [List.drop_drop]
  refine ⟨?_, ?_, hds, hlen, hdig, ?_⟩
  · by_cases hi : i = 0
    · exact Or.inl hi
    · right
      rw [if_neg hi] at hm hb hsl
      exact hsl
  · rw [← hdrop]; exact hr1
  · have hvis : fgVisibility g.data = some (String.mk ds ++ " meters") := by
      unfold fgVisibility
      rw [h]
      have hnotcavok : ¬ (String.mk ds = "CAVOK") := by
        intro hq
        have hql : ds = "CAVOK".data := by
          have := congrArg String.data hq
          simpa using this
        rw [hql] at hlen
        exact absurd hlen (by decide)
      have hnosm : containsSub ['S', 'M'] ds = false :=
        containsSub_SM_of_digits ds hdig
      simp [VisTok.text, hnotcavok, hnosm]
    simpa [parseForecastGroup] using hvis

/-- C7 witness: in `0812/0912 5000 NSW` the validity token is skipped and
`5000` is the stored meters visibility. -/
theorem c7_visibility_not_validity_witness :
    research matchVisTafAt ("0812/0912 5000 NSW").data =
      some (10, VisTok.meters ['5', '0', '0', '0'], 4) ∧
    (("0812/0912 5000 NSW").data.drop 14).head? ≠ some '/' ∧
    (parseForecastGroup "0812/0912 5000 NSW" "BASE").visibility = some "5000 meters" := by
  have h := c7_visibility_not_validity "0812/0912 5000 NSW" "BASE" 10
    ['5', '0', '0', '0'] 4 (by rfl)
  exact ⟨by rfl, h.2.1, h.2.2.2.2.2⟩

/-- C8: for every non-empty input string, the TAF dictionary carries all
five boolean flags `is_amended`, `is_corrected`, `is_nil`, `is_auto` and
`amd_not_sked` with explicit values. -/
theorem c8_flags_always_present (s : String) (h : s ≠ "") :
    (parseTafPy (some s)).is_amended.isSome ∧
    (parseTafPy (some s)).is_corrected.isSome ∧
    (parseTafPy (some s)).is_nil.isSome ∧
    (parseTafPy (some s)).is_auto.isSome ∧
    (parseTafPy (some s)).amd_not_sked.isSome := by
  simp [parseTafPy, h, parseTafStr]

/-- C8 witness: a TAF with none of the flag tokens still has all five
flags, valued `false`. -/
theorem c8_flags_always_present_witness :
    (parseTafPy (some "EGLL 121100Z 1212/1318 35010KT 9999 SCT025")).is_amended.isSome ∧
    (parseTafPy (some "EGLL 121100Z 1212/1318 35010KT 9999 SCT025")).is_corrected.isSome ∧
    (parseTafPy (some "EGLL 121100Z 1212/1318 35010KT 9999 SCT025")).is_nil.isSome ∧
    (parseTafPy (some "EGLL 121100Z 1212/1318 35010KT 9999 SCT025")).is_auto.isSome ∧
    (parseTafPy (some "EGLL 121100Z 1212/1318 35010KT 9999 SCT025")).amd_not_sked.isSome :=
  c8_flags_always_present "EGLL 121100Z 1212/1318 35010KT 9999 SCT025" (by decide)

/-- C9: a forecast group containing the standalone token `NSW` has its
weather list replaced by the single `NSW` entry (any earlier phenomena are
discarded); when `VCSH` is also present, the vicinity-showers-rain entry
is appended after it. -/
theorem c9_nsw_replaces_weather (g ty : String)
    (h : containsWord nswChars g.data = true) :
    (parseForecastGroup g ty).weather =
      some ([{ phenomenon := some "NSW" }] ++
        (if containsWord vcshChars g.data then
           [{ intensity := some "VC", descriptor := some "SH", phenomenon := some "RA" }]
         else ([] : List WxEntry))) := by
  by_cases hv : containsWord vcshChars g.data <;>
    simp [parseForecastGroup, fgWeather, h, hv]

/-- C9 witness: a group with earlier rain, `NSW` and `VCSH`. -/
theorem c9_nsw_replaces_weather_witness :
    containsWord nswChars ("-RA NSW VCSH").data = true ∧
    (parseForecastGroup "-RA NSW VCSH" "TEMPO").weather =
      some [{ phenomenon := some "NSW" },
            { intensity := some "VC", descriptor := some "SH", phenomenon := some "RA" }] := by
  have h := c9_nsw_replaces_weather "-RA NSW VCSH" "TEMPO" (by rfl)
  refine ⟨by rfl, ?_⟩
  simpa using h

/-- C10: in HTML mode `format_taf` is independent of the `eol` argument —
the output for any two `eol` values coincides — and on a dictionary input
it is the `_format_taf_html` line list joined with a newline character. -/
theorem c10_html_ignores_eol (p : Option TafParsed) (e1 e2 : String) :
    formatTafPy p e1 true = formatTafPy p e2 true ∧
    (∀ d : TafParsed, formatTafPy (some d) e1 true =
       if d = {} then "Invalid TAF data"
       else String.intercalate "\n" (tafHtmlLines d)) := by
  constructor
  · cases p with
    | none => rfl
    | some d => by_cases hd : d = {} <;> simp [formatTafPy, hd]
  · intro d
    by_cases hd : d = {} <;> simp [formatTafPy, formatTafHtml, hd]

end AvWx
